import Mathlib

/-!
Shallow embedding of the Agronomic Placement & Simulation Engine
(`app/services/agronomic_engine.py`) of the Garden Planner repository.

Conventions:
* Python `float` values are modelled as exact numbers: functions that only
  use field arithmetic are embedded over `ℚ` (executable), functions that
  use `math.sqrt` / `math.pi` are embedded over `ℝ`.
* Python dictionaries that are only read through `.get(key, default)` are
  modelled as `Option` fields; a missing key is `none`.
* Code that can raise is modelled with `Option` results (`none` = raise).
* `datetime` values are modelled as integer day counts; the expression
  `(datetime.now() - placement.planted_date).days` becomes an explicit
  `now : ℤ` parameter minus the stored planting day.
* The global `random` module is modelled as an oracle `Rng`: one stream of
  outcomes per `random.*` API function, consumed through explicit call
  counters `Cnt`.  `random.uniform(a, b)` is modelled as `a + (b - a) * u`
  where `u` is the next value of the `uniform` stream.
-/

open scoped Classical

namespace Agro

/-- `PlantType` enum of the source. -/
inductive PlantType
  | vegetable | herb | fruit | flower | root | legume
deriving DecidableEq, Repr

/-- `GrowthStage` enum of the source (strictly ordered list). -/
inductive GrowthStage
  | seed | seedling | vegetative | flowering | fruiting | harvest
deriving DecidableEq, Repr

/-- `list(GrowthStage)`: the declaration order of the enum members. -/
def growthStageList : List GrowthStage :=
  [.seed, .seedling, .vegetative, .flowering, .fruiting, .harvest]

/-- `list(GrowthStage).index(stage)`. -/
def GrowthStage.index : GrowthStage → Nat
  | .seed => 0
  | .seedling => 1
  | .vegetative => 2
  | .flowering => 3
  | .fruiting => 4
  | .harvest => 5

/-- `WaterNeed` enum of the source. -/
inductive WaterNeed
  | low | medium | high
deriving DecidableEq, Repr

/-- `WaterNeed.score`: `{"low": 1, "medium": 2, "high": 3}`. -/
def WaterNeed.score : WaterNeed → ℚ
  | .low => 1
  | .medium => 2
  | .high => 3

/-- `SunExposure` enum of the source (`FULL_SUN`, `PARTIAL_SUN`, `SHADE`). -/
inductive SunExposure
  | fullSun | partSun | shade
deriving DecidableEq, Repr

/-- Frozen dataclass `PlantSpecs`.  Scalar `float` fields are modelled as `ℚ`
(none of them flows into `math.sqrt`/`math.pi`), `growth_days : int` as `ℤ`,
the companion/incompatible tuples as `List String`, and the
`nutrient_requirements` frozenset as a list of pairs. -/
structure PlantSpecs where
  name : String
  ptype : PlantType
  spacing_min : ℚ
  spacing_optimal : ℚ
  water_need : WaterNeed
  sun_exposure : SunExposure
  growth_days : ℤ
  height_max : ℚ
  width_max : ℚ
  root_depth : ℚ
  yield_per_plant : ℚ
  companion_plants : List String := []
  incompatible_plants : List String := []
  water_consumption_daily : ℚ := 0
  nutrient_requirements : List (String × ℚ) := []
  frost_tolerance : Bool := false
  heat_tolerance : Bool := false
deriving DecidableEq, Repr

/-- Dataclass construction of `PlantSpecs` followed by `__post_init__`.
The source `__post_init__` only normalizes collections (tuples stay tuples,
a dict/iterable `nutrient_requirements` becomes a frozenset); it performs no
validation whatsoever and can never raise, so the embedded constructor
returns a plain `PlantSpecs` (no error channel). -/
def mkPlantSpecs (name : String) (ptype : PlantType)
    (spacing_min spacing_optimal : ℚ) (water_need : WaterNeed)
    (sun_exposure : SunExposure) (growth_days : ℤ)
    (height_max width_max root_depth yield_per_plant : ℚ)
    (companion_plants incompatible_plants : List String)
    (water_consumption_daily : ℚ)
    (nutrient_requirements : List (String × ℚ))
    (frost_tolerance heat_tolerance : Bool) : PlantSpecs :=
  { name := name, ptype := ptype, spacing_min := spacing_min,
    spacing_optimal := spacing_optimal, water_need := water_need,
    sun_exposure := sun_exposure, growth_days := growth_days,
    height_max := height_max, width_max := width_max,
    root_depth := root_depth, yield_per_plant := yield_per_plant,
    companion_plants := companion_plants,
    incompatible_plants := incompatible_plants,
    water_consumption_daily := water_consumption_daily,
    nutrient_requirements := nutrient_requirements,
    frost_tolerance := frost_tolerance, heat_tolerance := heat_tolerance }

/-- Dataclass `GardenZone`.  `area` and the center `coordinates` flow into
`math.sqrt(area / math.pi)` and Euclidean distances, so they are real; the
remaining scalar fields are rational. -/
structure GardenZone where
  id : String
  name : String
  area : ℝ
  soil_type : String
  ph_level : ℚ
  sun_exposure : SunExposure
  water_availability : ℚ
  elevation : ℚ
  slope : ℚ
  coordinates : ℝ × ℝ := (0, 0)

/-- Dataclass `PlantPlacement` (mutable in the source).  The position `(x, y)`
is real (it feeds Euclidean geometry); `planted_date` is a day number. -/
@[ext]
structure PlantPlacement where
  plant_id : String
  plant_specs : PlantSpecs
  x : ℝ
  y : ℝ
  planted_date : ℤ
  current_stage : GrowthStage
  health_score : ℚ := 1
  water_stress : ℚ := 0
  nutrient_stress : ℚ := 0

/-- Python `int(q)` on an exact value: truncation toward zero. -/
def pyInt (q : ℚ) : ℤ := if 0 ≤ q then ⌊q⌋ else ⌈q⌉

/-! ## AgronomicCalculator -/

/-- `AgronomicCalculator.calculate_optimal_spacing` (the `lru_cache` is pure
memoization and is semantically transparent):

    spacing = optimal + (min_spacing - optimal) * soil_quality
    return max(spacing, min_spacing)
-/
def calculate_optimal_spacing (plant_specs : PlantSpecs) (soil_quality : ℚ) : ℚ :=
  let min_spacing := plant_specs.spacing_min
  let optimal := plant_specs.spacing_optimal
  let spacing := optimal + (min_spacing - optimal) * soil_quality
  max spacing min_spacing

/-- The weather dict passed to `calculate_water_needs`; only the key `'et0'`
is ever read, via `weather_data.get('et0', 5.0)`. -/
structure WeatherData where
  et0 : Option ℚ := none

/-- The crop coefficient table `kc_values` (all six stages are present, so
the `.get(growth_stage, 0.8)` default is unreachable but kept faithful). -/
def kcValue : GrowthStage → ℚ
  | .seed => 3/10
  | .seedling => 5/10
  | .vegetative => 8/10
  | .flowering => 1
  | .fruiting => 11/10
  | .harvest => 7/10

/-- The `water_multiplier` lookup `{LOW: 0.7, MEDIUM: 1.0, HIGH: 1.3}` (every
`WaterNeed` is a key, so the `.get(..., 1.0)` default is unreachable). -/
def waterMultiplier : WaterNeed → ℚ
  | .low => 7/10
  | .medium => 1
  | .high => 13/10

/-- The unfloored daily-water product of `calculate_water_needs`:

    et0 * kc * water_multiplier * stress_factor * width_max * width_max / 10000
-/
def waterNeedsRaw (plant_specs : PlantSpecs) (weather_data : WeatherData)
    (soil_moisture : ℚ) (growth_stage : GrowthStage) : ℚ :=
  let et0 := weather_data.et0.getD 5
  let kc := kcValue growth_stage
  let water_multiplier := waterMultiplier plant_specs.water_need
  let stress_factor := max (1/2) (min (3/2) (soil_moisture / (3/10)))
  et0 * kc * water_multiplier * stress_factor *
    plant_specs.width_max * plant_specs.width_max / 10000

/-- `AgronomicCalculator.calculate_water_needs`: the raw evapotranspiration
product floored by `max(0.1, daily_water)`. -/
def calculate_water_needs (plant_specs : PlantSpecs) (weather_data : WeatherData)
    (soil_moisture : ℚ) (growth_stage : GrowthStage) : ℚ :=
  max (1/10) (waterNeedsRaw plant_specs weather_data soil_moisture growth_stage)

/-- The environment dict read by `calculate_growth_prediction`; only the keys
`'temperature_stress'` and `'humidity_stress'` are read (default `0.0`). -/
structure EnvironmentalFactors where
  temperature_stress : Option ℚ := none
  humidity_stress : Option ℚ := none

/-- `stage_durations` dict of `calculate_growth_prediction`; `HARVEST` is not
a key, hence the `.get(stage, 0)` default applies to it. -/
def stageDuration : GrowthStage → ℚ
  | .seed => 1/10
  | .seedling => 2/10
  | .vegetative => 4/10
  | .flowering => 2/10
  | .fruiting => 1/10
  | .harvest => 0

/-- Result dict of `calculate_growth_prediction`. -/
structure GrowthPrediction where
  growth_modifier : ℚ
  adjusted_growth_days : ℤ
  predicted_yield : ℚ
  current_progress : ℚ
  days_to_harvest : ℤ
  health_score : ℚ
  stress_water : ℚ
  stress_nutrient : ℚ
  stress_temperature : ℚ
  stress_humidity : ℚ
deriving DecidableEq, Repr

/-- `AgronomicCalculator.calculate_growth_prediction`.  `now` stands for
`datetime.now()` as a day number.  The source computes
`total_progress = days_elapsed / adjusted_growth_days`, which raises
`ZeroDivisionError` when `int(growth_days / growth_modifier) == 0`; that
raise is modelled by returning `none`. -/
def calculate_growth_prediction (plant_specs : PlantSpecs)
    (placement : PlantPlacement) (environmental_factors : EnvironmentalFactors)
    (now : ℤ) : Option GrowthPrediction :=
  let water_stress := placement.water_stress
  let nutrient_stress := placement.nutrient_stress
  let health_score := placement.health_score
  let temp_stress := environmental_factors.temperature_stress.getD 0
  let humidity_stress := environmental_factors.humidity_stress.getD 0
  let total_stress := (water_stress + nutrient_stress + temp_stress + humidity_stress) / 4
  let growth_modifier := (1 : ℚ) - total_stress * (1/2)
  let growth_modifier := max (1/2) (min (3/2) growth_modifier)
  let adjusted_growth_days := pyInt ((plant_specs.growth_days : ℚ) / growth_modifier)
  let base_yield := plant_specs.yield_per_plant
  let yield_modifier := health_score * (1 - total_stress * (3/10))
  let predicted_yield := base_yield * yield_modifier
  -- `current_progress` is computed by the source but shadowed by
  -- `min(1.0, total_progress)` in the returned dict (dead local).
  let _current_progress :=
    ((growthStageList.take (placement.current_stage.index + 1)).map stageDuration).sum
  let days_elapsed := now - placement.planted_date
  if adjusted_growth_days = 0 then
    none  -- ZeroDivisionError in `days_elapsed / adjusted_growth_days`
  else
    let total_progress := (days_elapsed : ℚ) / (adjusted_growth_days : ℚ)
    some
      { growth_modifier := growth_modifier,
        adjusted_growth_days := adjusted_growth_days,
        predicted_yield := predicted_yield,
        current_progress := min 1 total_progress,
        days_to_harvest := max 0 (adjusted_growth_days - days_elapsed),
        health_score := health_score,
        stress_water := water_stress,
        stress_nutrient := nutrient_stress,
        stress_temperature := temp_stress,
        stress_humidity := humidity_stress }

/-! ## Geometry: distances and zone membership -/

/-- The Euclidean distance pattern
`math.sqrt((p1.x - p2.x) ** 2 + (p1.y - p2.y) ** 2)` used throughout. -/
noncomputable def placementDist (p1 p2 : PlantPlacement) : ℝ :=
  Real.sqrt ((p1.x - p2.x) ^ 2 + (p1.y - p2.y) ^ 2)

/-- `AgronomicCalculator._is_in_zone`:
`sqrt(dx*dx + dy*dy) <= sqrt(zone.area / math.pi)`. -/
def isInZone (placement : PlantPlacement) (zone : GardenZone) : Prop :=
  Real.sqrt ((placement.x - zone.coordinates.1) ^ 2 +
      (placement.y - zone.coordinates.2) ^ 2) ≤
    Real.sqrt (zone.area / Real.pi)

/-- All ordered pairs `(l[i], l[j])` with `i < j`, in the iteration order of
the double loop `for i, p1 in enumerate(l): for p2 in l[i+1:]`. -/
def orderedPairs : List PlantPlacement → List (PlantPlacement × PlantPlacement)
  | [] => []
  | p :: rest => rest.map (fun q => (p, q)) ++ orderedPairs rest

/-- The required pair spacing used by both the optimizer fitness and the
conflict detector: `calculate_optimal_spacing(placement1.plant_specs, 0.7) / 100`
(centimeters converted to meters), derived from the FIRST element of the
pair only. -/
noncomputable def requiredSpacingM (p1 : PlantPlacement) : ℝ :=
  ((calculate_optimal_spacing p1.plant_specs (7/10) : ℚ) : ℝ) / 100

/-! ## PlacementOptimizer fitness -/

/-- One spacing-penalty term of `_calculate_fitness`:
`(min_spacing - distance) * 10` when `distance < min_spacing`, else nothing. -/
noncomputable def spacingTerm (pq : PlantPlacement × PlantPlacement) : ℝ :=
  if placementDist pq.1 pq.2 < requiredSpacingM pq.1 then
    (requiredSpacingM pq.1 - placementDist pq.1 pq.2) * 10
  else 0

/-- One compatibility-penalty term of `_calculate_fitness`: a flat `50` when
the profiles list each other as incompatible and the distance is `< 1.0`. -/
noncomputable def compatTerm (pq : PlantPlacement × PlantPlacement) : ℝ :=
  if (pq.2.plant_specs.name ∈ pq.1.plant_specs.incompatible_plants ∨
        pq.1.plant_specs.name ∈ pq.2.plant_specs.incompatible_plants) ∧
      placementDist pq.1 pq.2 < 1 then 50
  else 0

/-- One zone-penalty term of `_calculate_fitness`: a flat `100` for a
placement contained in no zone. -/
noncomputable def zoneTerm (garden_zones : List GardenZone) (p : PlantPlacement) : ℝ :=
  if ∃ z ∈ garden_zones, isInZone p z then 0 else 100

/-- The `spacing_penalty` accumulator of `_calculate_fitness`. -/
noncomputable def spacingPenalty (individual : List PlantPlacement) : ℝ :=
  ((orderedPairs individual).map spacingTerm).sum

/-- The `compatibility_penalty` accumulator of `_calculate_fitness`. -/
noncomputable def compatibilityPenalty (individual : List PlantPlacement) : ℝ :=
  ((orderedPairs individual).map compatTerm).sum

/-- The `zone_penalty` accumulator of `_calculate_fitness`. -/
noncomputable def zonePenalty (individual : List PlantPlacement)
    (garden_zones : List GardenZone) : ℝ :=
  (individual.map (zoneTerm garden_zones)).sum

/-- `PlacementOptimizer._calculate_fitness` on a non-empty individual:
`len(individual) * 10 - (spacing_penalty + compatibility_penalty + zone_penalty)`. -/
noncomputable def fitnessCore (individual : List PlantPlacement)
    (garden_zones : List GardenZone) : ℝ :=
  (individual.length : ℝ) * 10 -
    (spacingPenalty individual + compatibilityPenalty individual +
      zonePenalty individual garden_zones)

/-- `PlacementOptimizer._calculate_fitness`; `float('-inf')` for the empty
candidate is modelled as `⊥ : WithBot ℝ`. -/
noncomputable def calculate_fitness (individual : List PlantPlacement)
    (garden_zones : List GardenZone) : WithBot ℝ :=
  if individual = [] then ⊥
  else (fitnessCore individual garden_zones : ℝ)

/-! ## ConflictDetector -/

/-- One record of `conflicts['spacing_violations']`. -/
structure SpacingViolation where
  plant1 : String
  plant2 : String
  current_distance : ℝ
  required_distance : ℝ
  severity : String

/-- One record of `conflicts['compatibility_violations']`. -/
structure CompatibilityViolation where
  plant1 : String
  plant2 : String
  distance : ℝ
  severity : String

/-- One record of `conflicts['zone_violations']`. -/
structure ZoneViolation where
  plant_id : String
  position : ℝ × ℝ
  severity : String

/-- One record of `conflicts['resource_conflicts']`
(produced by `_detect_water_conflicts`). -/
structure ResourceConflict where
  ctype : String
  plants : List String
  severity : String
  description : String

/-- The `conflicts` dict returned by `ConflictDetector.detect_conflicts`. -/
structure Conflicts where
  spacing_violations : List SpacingViolation
  compatibility_violations : List CompatibilityViolation
  zone_violations : List ZoneViolation
  resource_conflicts : List ResourceConflict

/-- The spacing-violation pass of `detect_conflicts`: for each pair `i < j`
with `distance < calculate_optimal_spacing(p1.plant_specs, 0.7)/100`, one
record; severity `'high'` iff `distance < min_spacing * 0.5`. -/
noncomputable def spacingViolationsOf (placements : List PlantPlacement) :
    List SpacingViolation :=
  (orderedPairs placements).filterMap fun pq =>
    if placementDist pq.1 pq.2 < requiredSpacingM pq.1 then
      some
        { plant1 := pq.1.plant_id, plant2 := pq.2.plant_id,
          current_distance := placementDist pq.1 pq.2,
          required_distance := requiredSpacingM pq.1,
          severity :=
            if placementDist pq.1 pq.2 < requiredSpacingM pq.1 * (1/2) then "high"
            else "medium" }
    else none

/-- The compatibility-violation pass of `detect_conflicts`: incompatible
pairs within `2.0` units, severity `'high'`. -/
noncomputable def compatibilityViolationsOf (placements : List PlantPlacement) :
    List CompatibilityViolation :=
  (orderedPairs placements).filterMap fun pq =>
    if (pq.2.plant_specs.name ∈ pq.1.plant_specs.incompatible_plants ∨
          pq.1.plant_specs.name ∈ pq.2.plant_specs.incompatible_plants) ∧
        placementDist pq.1 pq.2 < 2 then
      some
        { plant1 := pq.1.plant_id, plant2 := pq.2.plant_id,
          distance := placementDist pq.1 pq.2, severity := "high" }
    else none

/-- The zone-violation pass of `detect_conflicts`. -/
noncomputable def zoneViolationsOf (placements : List PlantPlacement)
    (garden_zones : List GardenZone) : List ZoneViolation :=
  placements.filterMap fun p =>
    if ∃ z ∈ garden_zones, isInZone p z then none
    else some { plant_id := p.plant_id, position := (p.x, p.y), severity := "high" }

/-- The plant-id list `high_water_plants` accumulated by
`_detect_water_conflicts` for a head placement over the tail of the list:
later placements with `distance < 1.0` such that both ends have
`water_need == HIGH`. -/
noncomputable def laterHighWaterIds (p1 : PlantPlacement)
    (later : List PlantPlacement) : List String :=
  later.filterMap fun p2 =>
    if placementDist p1 p2 < 1 ∧
        p1.plant_specs.water_need = WaterNeed.high ∧
        p2.plant_specs.water_need = WaterNeed.high then some p2.plant_id
    else none

/-- The conflict record appended by `_detect_water_conflicts` when more than
two later high-water plants sit within one unit of `p1`. -/
def waterConflictRecord (p1 : PlantPlacement) (ids : List String) : ResourceConflict :=
  { ctype := "water_competition",
    plants := p1.plant_id :: ids,
    severity := "medium",
    description := "Multiple high-water-need plants in close proximity" }

/-- `ConflictDetector._detect_water_conflicts` (the `garden_zones` argument
is never read by the source body). -/
noncomputable def detectWaterConflicts : List PlantPlacement → List ResourceConflict
  | [] => []
  | p1 :: rest =>
    (if 2 < (laterHighWaterIds p1 rest).length then
      [waterConflictRecord p1 (laterHighWaterIds p1 rest)]
    else []) ++ detectWaterConflicts rest

/-- `ConflictDetector.detect_conflicts`. -/
noncomputable def detect_conflicts (placements : List PlantPlacement)
    (garden_zones : List GardenZone) : Conflicts :=
  { spacing_violations := spacingViolationsOf placements,
    compatibility_violations := compatibilityViolationsOf placements,
    zone_violations := zoneViolationsOf placements garden_zones,
    resource_conflicts := detectWaterConflicts placements }

/-! ## IrrigationPlanner and engine efficiency metrics -/

/-- The zone-descriptor dict returned by
`IrrigationPlanner._create_irrigation_zone`.  Its keys are exactly
`'plants'`, `'center'`, `'radius'` and (in the non-empty branch)
`'water_need'`; there is NO `'area'` key. -/
structure IrrigationZoneData where
  plants : List PlantPlacement
  center : ℝ × ℝ
  radius : ℝ
  water_need : Option WaterNeed

/-- The lookup `zone['area'] if isinstance(zone, dict) and 'area' in zone`
performed by `_calculate_efficiency_metrics`: an `IrrigationZoneData` dict
carries no `'area'` key, so the lookup always misses. -/
def IrrigationZoneData.areaField (_ : IrrigationZoneData) : Option ℚ := none

/-- `IrrigationPlanner._create_irrigation_zone`.  The empty branch returns
`{'plants': [], 'center': (0, 0), 'radius': 0}` (without `'water_need'`,
modelled as `none`). -/
noncomputable def create_irrigation_zone (plants : List PlantPlacement)
    (water_need : WaterNeed) : IrrigationZoneData :=
  if plants = [] then
    { plants := [], center := (0, 0), radius := 0, water_need := none }
  else
    let n : ℝ := plants.length
    let center_x := (plants.map (·.x)).sum / n
    let center_y := (plants.map (·.y)).sum / n
    let max_distance :=
      (plants.map fun p =>
        Real.sqrt ((p.x - center_x) ^ 2 + (p.y - center_y) ^ 2)).foldl max 0
    { plants := plants, center := (center_x, center_y),
      radius := max_distance + 1, water_need := some water_need }

/-- The slice of the `water_analysis` dict read by
`_calculate_efficiency_metrics`: `water_analysis.get('zones', {}).values()`
and `water_analysis.get('efficiency_score', 0.0)`. -/
structure WaterAnalysis where
  zones : List IrrigationZoneData
  efficiency_score : ℚ

/-- The dict returned by `AgronomicEngine._calculate_efficiency_metrics`
(the `'details'` sub-dict is flattened into the last three fields). -/
structure EfficiencyMetrics where
  overall_score : ℚ
  space_utilization : ℚ
  water_efficiency : ℚ
  solar_efficiency : ℚ
  conflict_penalty : ℚ
  total_plants : Nat
  total_conflicts : Nat
  avg_water_need : ℚ
deriving DecidableEq, Repr

/-- `AgronomicEngine._calculate_efficiency_metrics`.  `solar_analysis` is the
list of values of the per-plant solar-score dict.  The empty-placement branch
of the source returns `{'overall_score': 0.0, 'details': {}}`; it is modelled
as the all-zero record. -/
def calculate_efficiency_metrics (placements : List PlantPlacement)
    (water_analysis : WaterAnalysis) (solar_analysis : List ℚ)
    (conflicts : Conflicts) : EfficiencyMetrics :=
  if placements.isEmpty then
    { overall_score := 0, space_utilization := 0, water_efficiency := 0,
      solar_efficiency := 0, conflict_penalty := 0, total_plants := 0,
      total_conflicts := 0, avg_water_need := 0 }
  else
    let total_area := (water_analysis.zones.map (fun z => z.areaField.getD 0)).sum
    let total_area := if total_area ≤ 0 then 1 else total_area
    let space_utilization := (placements.length : ℚ) / total_area
    let water_efficiency := water_analysis.efficiency_score
    let avg_solar_score :=
      if solar_analysis = [] then 0
      else solar_analysis.sum / (solar_analysis.length : ℚ)
    let conflict_penalty :=
      (conflicts.spacing_violations.length : ℚ) * (1/10) +
        (conflicts.compatibility_violations.length : ℚ) * (2/10) +
        (conflicts.zone_violations.length : ℚ) * (3/10)
    let avg_water_need :=
      (placements.map (fun p => p.plant_specs.water_need.score)).sum /
        (placements.length : ℚ)
    let overall_score :=
      space_utilization * 25 + water_efficiency * 25 + avg_solar_score * 25 +
        (1 - min conflict_penalty 1) * 25
    { overall_score := min 100 (max 0 overall_score),
      space_utilization := space_utilization,
      water_efficiency := water_efficiency,
      solar_efficiency := avg_solar_score,
      conflict_penalty := conflict_penalty,
      total_plants := placements.length,
      total_conflicts :=
        conflicts.spacing_violations.length +
          conflicts.compatibility_violations.length +
          conflicts.zone_violations.length +
          conflicts.resource_conflicts.length,
      avg_water_need := avg_water_need }

/-! ## PlacementOptimizer: genetic algorithm

The `random` module is an oracle `Rng` with one outcome stream per API
function; `Cnt` holds the per-stream call counters.  `PlantPlacement`
objects are mutable in Python and are freely aliased between individuals
(`list.copy()` is shallow), so individuals are lists of object ids into a
heap `store : List PlantPlacement`; `_mutate`'s in-place `+=` becomes an
update of the store. -/

/-- Oracle for the `random` module: outcome streams per API function.
`random.uniform(a, b)` is `a + (b - a) * unif k` with `unif k ∈ [0, 1]`;
`random.sample(range(n), 3)` yields the three indices `smp k`;
`random.choice(xs)` yields index `chc k`; `random.randint(lo, hi)` yields
`lo + rint k % (hi - lo + 1)`. -/
structure Rng where
  rnd : Nat → ℚ
  unif : Nat → ℚ
  smp : Nat → Nat × Nat × Nat
  chc : Nat → Nat
  rint : Nat → Nat

/-- Per-stream call counters of the `Rng` oracle. -/
structure Cnt where
  rnd : Nat := 0
  unif : Nat := 0
  smp : Nat := 0
  chc : Nat := 0
  rint : Nat := 0
deriving DecidableEq, Repr

/-- One `random.random()` call. -/
def drawRnd (r : Rng) (c : Cnt) : ℚ × Cnt :=
  (r.rnd c.rnd, { c with rnd := c.rnd + 1 })

/-- One `random.uniform(a, b)` call. -/
noncomputable def drawUnif (r : Rng) (c : Cnt) (a b : ℝ) : ℝ × Cnt :=
  (a + (b - a) * ((r.unif c.unif : ℚ) : ℝ), { c with unif := c.unif + 1 })

/-- One `random.sample(range(n), 3)` call (the three sampled indices). -/
def drawSmp (r : Rng) (c : Cnt) : (Nat × Nat × Nat) × Cnt :=
  (r.smp c.smp, { c with smp := c.smp + 1 })

/-- One `random.choice` call (the chosen index). -/
def drawChc (r : Rng) (c : Cnt) : Nat × Cnt :=
  (r.chc c.chc, { c with chc := c.chc + 1 })

/-- One `random.randint(lo, hi)` call.  For `hi < lo` Python raises
`ValueError`; the embedding is total (`% 0` is the identity) and the only
such call site, `random.randint(1, len(parent1) - 1)` on single-placement
parents, is noted at `crossoverFn`. -/
def pyRandint (r : Rng) (c : Cnt) (lo hi : Nat) : Nat × Cnt :=
  (lo + r.rint c.rint % (hi - lo + 1), { c with rint := c.rint + 1 })

/-- Placeholder used by total list lookups (never reached on ids created by
the run itself). -/
def defaultPlantSpecs : PlantSpecs :=
  { name := "", ptype := .vegetable, spacing_min := 0, spacing_optimal := 0,
    water_need := .low, sun_exposure := .fullSun, growth_days := 0,
    height_max := 0, width_max := 0, root_depth := 0, yield_per_plant := 0 }

/-- Placeholder placement for total list lookups. -/
noncomputable def defaultPlacement : PlantPlacement :=
  { plant_id := "", plant_specs := defaultPlantSpecs, x := 0, y := 0,
    planted_date := 0, current_stage := .seed }

/-- Placeholder zone for total list lookups. -/
noncomputable def defaultGardenZone : GardenZone :=
  { id := "", name := "", area := 0, soil_type := "", ph_level := 0,
    sun_exposure := .fullSun, water_availability := 0, elevation := 0,
    slope := 0 }

/-- Follow one object id into the heap. -/
noncomputable def derefOne (store : List PlantPlacement) (i : Nat) : PlantPlacement :=
  store.getD i defaultPlacement

/-- Follow an individual's object ids into the heap (a Python list of
`PlantPlacement` references). -/
noncomputable def deref (store : List PlantPlacement) (ids : List Nat) :
    List PlantPlacement :=
  ids.map (derefOne store)

/-- `_calculate_fitness` applied to an individual given by ids. -/
noncomputable def fitnessIds (store : List PlantPlacement) (ids : List Nat)
    (garden_zones : List GardenZone) : WithBot ℝ :=
  calculate_fitness (deref store ids) garden_zones

/-- `self.population_size = 50`. -/
def populationSize : Nat := 50

/-- `self.generations = 100`. -/
def generationTotal : Nat := 100

/-- `self.mutation_rate = 0.1`. -/
def mutationRate : ℚ := 1/10

/-- `self.crossover_rate = 0.8`. -/
def crossoverRate : ℚ := 8/10

/-- `PlacementOptimizer._create_random_placement`: pick a random zone, then a
uniform angle in `[0, 2π]`, a uniform distance up to the zone radius
`sqrt(area/π)`, and a fresh id suffix `randint(1000, 9999)`.
`datetime.now()` is modelled as day `0`. -/
noncomputable def create_random_placement (plant_specs : PlantSpecs)
    (garden_zones : List GardenZone) (r : Rng) (c : Cnt) : PlantPlacement × Cnt :=
  let (zi, c) := drawChc r c
  let zone := garden_zones.getD (zi % garden_zones.length) defaultGardenZone
  let radius := Real.sqrt (zone.area / Real.pi)
  let (angle, c) := drawUnif r c 0 (2 * Real.pi)
  let (distance, c) := drawUnif r c 0 radius
  let (idn, c) := pyRandint r c 1000 9999
  ({ plant_id := plant_specs.name ++ "_" ++ toString idn,
     plant_specs := plant_specs,
     x := zone.coordinates.1 + distance * Real.cos angle,
     y := zone.coordinates.2 + distance * Real.sin angle,
     planted_date := 0,
     current_stage := .seed }, c)

/-- Inner loop of `_initialize_population`: one individual, one fresh heap
object per plant profile. -/
noncomputable def initIndividualAux (garden_zones : List GardenZone) (r : Rng) :
    List PlantSpecs → List Nat × List PlantPlacement × Cnt →
      List Nat × List PlantPlacement × Cnt
  | [], acc => acc
  | specs :: rest, (ids, store, c) =>
    let (p, c') := create_random_placement specs garden_zones r c
    initIndividualAux garden_zones r rest (ids ++ [store.length], store ++ [p], c')

/-- `_initialize_population`: `population_size` independent individuals. -/
noncomputable def initPopulationAux (plants : List PlantSpecs)
    (garden_zones : List GardenZone) (r : Rng) :
    Nat → List (List Nat) × List PlantPlacement × Cnt →
      List (List Nat) × List PlantPlacement × Cnt
  | 0, acc => acc
  | n + 1, (pop, store, c) =>
    let (ids, store', c') := initIndividualAux garden_zones r plants ([], store, c)
    initPopulationAux plants garden_zones r n (pop ++ [ids], store', c')

/-- The per-generation evaluation loop: collect `fitness_scores` in order and
fold the running best (`if fitness > best_fitness: best_fitness = fitness;
best_solution = individual.copy()` — a SHALLOW copy: the id list is copied,
the heap objects are shared). -/
noncomputable def evalLoop (store : List PlantPlacement)
    (garden_zones : List GardenZone) :
    List (List Nat) → WithBot ℝ → Option (List Nat) →
      List (WithBot ℝ) × WithBot ℝ × Option (List Nat)
  | [], bf, bs => ([], bf, bs)
  | ind :: rest, bf, bs =>
    let f := fitnessIds store ind garden_zones
    let bf' := if bf < f then f else bf
    let bs' := if bf < f then some ind else bs
    let (scores, bf2, bs2) := evalLoop store garden_zones rest bf' bs'
    (f :: scores, bf2, bs2)

/-- Python `max(lst)` over fitness values (keeps the earliest maximum). -/
noncomputable def pyMaxAux : List (WithBot ℝ) → WithBot ℝ → WithBot ℝ
  | [], m => m
  | x :: rest, m => pyMaxAux rest (if m < x then x else m)

/-- Python `max(lst)` (the fitness lists it is applied to are non-empty, so
the `⊥` seed is absorbed). -/
noncomputable def pyMax (l : List (WithBot ℝ)) : WithBot ℝ := pyMaxAux l ⊥

/-- Python `lst.index(x)`: position of the first occurrence. -/
noncomputable def pyIndex : List (WithBot ℝ) → WithBot ℝ → Nat
  | [], _ => 0
  | y :: rest, x => if y = x then 0 else pyIndex rest x + 1

/-- `PlacementOptimizer._tournament_selection` (tournament size 3). -/
noncomputable def tournament_selection (population : List (List Nat))
    (fitness_scores : List (WithBot ℝ)) (r : Rng) (c : Cnt) : List Nat × Cnt :=
  let (s, c) := drawSmp r c
  let tournament_indices :=
    [s.1 % population.length, s.2.1 % population.length, s.2.2 % population.length]
  let tournament_fitness := tournament_indices.map fun i => fitness_scores.getD i ⊥
  let winner_index :=
    tournament_indices.getD (pyIndex tournament_fitness (pyMax tournament_fitness)) 0
  (population.getD winner_index [], c)

/-- `PlacementOptimizer._crossover`: single-point crossover at
`randint(1, len - 1)`; parents of unequal length are cloned unchanged.
(On equal length 1 the Python `randint(1, 0)` raises `ValueError`; no claim
exercises that path.) -/
def crossoverFn (parent1 parent2 : List Nat) (r : Rng) (c : Cnt) :
    (List Nat × List Nat) × Cnt :=
  if parent1.length ≠ parent2.length then ((parent1, parent2), c)
  else
    let (point, c) := pyRandint r c 1 (parent1.length - 1)
    ((parent1.take point ++ parent2.drop point,
      parent2.take point ++ parent1.drop point), c)

/-- In-place field update of one heap object. -/
noncomputable def modifyAt (store : List PlantPlacement) (i : Nat)
    (f : PlantPlacement → PlantPlacement) : List PlantPlacement :=
  store.set i (f (store.getD i defaultPlacement))

/-- `PlacementOptimizer._mutate`: for each placement of the individual an
independent 10% gate; on success `x += uniform(-0.5, 0.5)` and
`y += uniform(-0.5, 0.5)` IN PLACE on the shared heap object.  The returned
id list is `individual.copy()`, i.e. the same ids. -/
noncomputable def mutateAux (r : Rng) :
    List Nat → List PlantPlacement × Cnt → List PlantPlacement × Cnt
  | [], sc => sc
  | i :: rest, (store, c) =>
    let (g, c) := drawRnd r c
    if g < 1/10 then
      let (dx, c) := drawUnif r c (-(1/2)) (1/2)
      let (dy, c) := drawUnif r c (-(1/2)) (1/2)
      mutateAux r rest
        (modifyAt store i (fun p => { p with x := p.x + dx, y := p.y + dy }), c)
    else mutateAux r rest (store, c)

/-- `PlacementOptimizer._mutate` entry point (store-level effect). -/
noncomputable def mutateFn (individual : List Nat) (store : List PlantPlacement)
    (r : Rng) (c : Cnt) : List PlantPlacement × Cnt :=
  mutateAux r individual (store, c)

/-- One iteration of the offspring loop: two tournament selections, the
crossover-rate gate, and one mutation-rate gate per child. -/
noncomputable def pairingStep (population : List (List Nat))
    (fitness_scores : List (WithBot ℝ)) (r : Rng)
    (acc : List (List Nat) × List PlantPlacement × Cnt) :
    List (List Nat) × List PlantPlacement × Cnt :=
  let (newPop, store, c) := acc
  let (parent1, c) := tournament_selection population fitness_scores r c
  let (parent2, c) := tournament_selection population fitness_scores r c
  let (g, c) := drawRnd r c
  let ((child1, child2), c) :=
    if g < crossoverRate then crossoverFn parent1 parent2 r c
    else ((parent1, parent2), c)
  let (g1, c) := drawRnd r c
  let (store, c) := if g1 < mutationRate then mutateFn child1 store r c else (store, c)
  let (g2, c) := drawRnd r c
  let (store, c) := if g2 < mutationRate then mutateFn child2 store r c else (store, c)
  (newPop ++ [child1, child2], store, c)

/-- `for _ in range(population_size // 2): ...` offspring loop. -/
noncomputable def reproduceAux (population : List (List Nat))
    (fitness_scores : List (WithBot ℝ)) (r : Rng) :
    Nat → List (List Nat) × List PlantPlacement × Cnt →
      List (List Nat) × List PlantPlacement × Cnt
  | 0, acc => acc
  | n + 1, acc =>
    reproduceAux population fitness_scores r n (pairingStep population fitness_scores r acc)

/-- State threaded through the generation loop of
`optimize_placement_genetic`. -/
structure GAState where
  store : List PlantPlacement
  population : List (List Nat)
  best_fitness : WithBot ℝ
  best_solution : Option (List Nat)
  cnt : Cnt

/-- One generation: evaluate all fitness values (updating the running best),
then build `new_population` and truncate it to `population_size`. -/
noncomputable def generationStep (garden_zones : List GardenZone) (r : Rng)
    (st : GAState) : GAState :=
  let (fitness_scores, bf, bs) :=
    evalLoop st.store garden_zones st.population st.best_fitness st.best_solution
  let (newPop, store, c) :=
    reproduceAux st.population fitness_scores r (populationSize / 2)
      ([], st.store, st.cnt)
  { store := store, population := newPop.take populationSize,
    best_fitness := bf, best_solution := bs, cnt := c }

/-- The `for generation in range(self.generations)` loop. -/
noncomputable def runGenerations (garden_zones : List GardenZone) (r : Rng) :
    Nat → GAState → GAState
  | 0, st => st
  | n + 1, st => runGenerations garden_zones r n (generationStep garden_zones r st)

/-- `PlacementOptimizer.optimize_placement_genetic` (the unused
`constraints` dict is omitted): initial population, 100 generations, final
state.  The Python return value `best_solution` is the list of (shared,
possibly later-mutated) objects `returnedCandidate` below. -/
noncomputable def optimize_placement_genetic (plants : List PlantSpecs)
    (garden_zones : List GardenZone) (r : Rng) : GAState :=
  let (pop, store, c) :=
    initPopulationAux plants garden_zones r populationSize ([], [], {})
  runGenerations garden_zones r generationTotal
    { store := store, population := pop, best_fitness := ⊥,
      best_solution := none, cnt := c }

/-- The object list actually returned by `optimize_placement_genetic`:
`best_solution`'s ids resolved in the final heap. -/
noncomputable def returnedCandidate (st : GAState) : Option (List PlantPlacement) :=
  st.best_solution.map (deref st.store)

/-! ## Definitions taken from the specification's wording

These two definitions are NOT translations of the source; they transcribe
what the spec/claims assert, so that the corresponding claim can be compared
against the source translation above. -/

/-- Modelled from the claim wording for the efficiency metrics:
`space_utilization = placement_count / total_zone_area`, with the total zone
area read from the garden zones. -/
noncomputable def claimSpaceUtilization (placements : List PlantPlacement)
    (garden_zones : List GardenZone) : ℝ :=
  (placements.length : ℝ) / (garden_zones.map (·.area)).sum

/-- Modelled from the claim wording for `_mutate`: once mutation triggers,
EVERY placement of the individual has its `x` and `y` perturbed by an
independent uniform offset in `[-0.5, 0.5]` (no per-placement gate). -/
noncomputable def mutateEveryPlacementClaim (r : Rng) :
    List Nat → List PlantPlacement × Cnt → List PlantPlacement × Cnt
  | [], sc => sc
  | i :: rest, (store, c) =>
    let (dx, c) := drawUnif r c (-(1/2)) (1/2)
    let (dy, c) := drawUnif r c (-(1/2)) (1/2)
    mutateEveryPlacementClaim r rest
      (modifyAt store i (fun p => { p with x := p.x + dx, y := p.y + dy }), c)

/-- Modelled from the claim wording for the water-competition check: the ids
of the OTHER (any index) high-water-need placements within `1.0` unit of
placement `i`. -/
noncomputable def claimNearbyHighIds (placements : List PlantPlacement) (i : Nat) :
    List String :=
  let p := placements.getD i defaultPlacement
  (placements.eraseIdx i).filterMap fun q =>
    if placementDist p q < 1 ∧ p.plant_specs.water_need = WaterNeed.high ∧
        q.plant_specs.water_need = WaterNeed.high then some q.plant_id
    else none

/-! ## Concrete fixtures for witnesses and counterexamples -/

/-- Fixture profile builder (only the fields relevant to the claims vary). -/
def simpleSpecs (name : String) (smin sopt : ℚ) (wn : WaterNeed) (gdays : ℤ)
    (wmax : ℚ) (incompat : List String) : PlantSpecs :=
  { name := name, ptype := .vegetable, spacing_min := smin,
    spacing_optimal := sopt, water_need := wn, sun_exposure := .fullSun,
    growth_days := gdays, height_max := 50, width_max := wmax,
    root_depth := 20, yield_per_plant := 1, incompatible_plants := incompat }

/-- Fixture placement builder (fresh plant at a position, default state). -/
noncomputable def placeAt (id : String) (specs : PlantSpecs) (x y : ℝ) :
    PlantPlacement :=
  { plant_id := id, plant_specs := specs, x := x, y := y, planted_date := 0,
    current_stage := .seed }

/-- Witness profile for the spacing claim: `spacing_min = 10 ≤ 20 = spacing_optimal`. -/
def specsSpacing : PlantSpecs := simpleSpecs "s" 10 20 .medium 30 50 []

/-- Counterexample profile for the water claim: `width_max = 0`. -/
def specsWidth0 : PlantSpecs := simpleSpecs "w0" 10 20 .medium 30 0 []

/-- Witness profile for the water claim: `width_max = 100`, medium need. -/
def specsWidth100 : PlantSpecs := simpleSpecs "w1" 10 20 .medium 30 100 []

/-- Counterexample profile for the growth claim: `growth_days = 0`. -/
def specsGrowth0 : PlantSpecs := simpleSpecs "g0" 10 20 .medium 0 50 []

/-- Witness profile for the growth claim: `growth_days = 30`. -/
def specsGrowth30 : PlantSpecs := simpleSpecs "g30" 10 20 .medium 30 50 []

/-- A placement of the zero-growth-days profile (used with `now = 0`). -/
noncomputable def placeGrowth0 : PlantPlacement := placeAt "g0_1" specsGrowth0 0 0

/-- A placement of the 30-growth-days profile. -/
noncomputable def placeGrowth30 : PlantPlacement := placeAt "g30_1" specsGrowth30 0 0

/-- The invalid profile of claim C9: `spacing_min = 30 > 10 = spacing_optimal`,
self-referential and overlapping companion/incompatible sets. -/
def invalidSpecs : PlantSpecs :=
  mkPlantSpecs "x" .vegetable 30 10 .low .fullSun 50 10 10 10 1
    ["x", "y"] ["x", "z"] 0 [] false false

/-- Fixture profile for the fitness claim: spacing 10/20 cm, no incompatibles. -/
def specsT : PlantSpecs := simpleSpecs "t" 10 20 .medium 30 50 []

/-- A circular zone of radius exactly 1 (`area = π`), centered at the origin. -/
noncomputable def zonePi : GardenZone :=
  { id := "z1", name := "z1", area := Real.pi, soil_type := "loam",
    ph_level := 7, sun_exposure := .fullSun, water_availability := 100,
    elevation := 0, slope := 0 }

/-- A placement of `specsT` at the origin (inside `zonePi`). -/
noncomputable def pT : PlantPlacement := placeAt "t1" specsT 0 0

/-- Wide-spacing profile for the duplicate-insertion witness:
`calculate_optimal_spacing = 200 cm`, i.e. 2.0 m. -/
def specsBig : PlantSpecs := simpleSpecs "big" 200 200 .low 30 50 []

/-- First placement of `specsBig` at the origin. -/
noncomputable def pBig : PlantPlacement := placeAt "b1" specsBig 0 0

/-- Duplicate-position placement of `specsBig` at the origin. -/
noncomputable def pBigDup : PlantPlacement := placeAt "b2" specsBig 0 0

/-- Profile `"A"` with required spacing 200 cm (2 m) at any soil quality. -/
def specsA200 : PlantSpecs := simpleSpecs "A" 200 200 .low 30 50 []

/-- Profile `"B"` with required spacing 10 cm (0.1 m) at any soil quality. -/
def specsB10 : PlantSpecs := simpleSpecs "B" 10 10 .low 30 50 []

/-- Placement of `"A"` at the origin. -/
noncomputable def pA200 : PlantPlacement := placeAt "A1" specsA200 0 0

/-- Placement of `"B"` at distance 1 from the origin. -/
noncomputable def pB10 : PlantPlacement := placeAt "B1" specsB10 1 0

/-- High-water-need profile for the water-competition claim. -/
def specsHigh : PlantSpecs := simpleSpecs "h" 10 20 .high 30 50 []

/-- Four co-located high-water placements. -/
noncomputable def hp0 : PlantPlacement := placeAt "h0" specsHigh 0 0

/-- Second co-located high-water placement. -/
noncomputable def hp1 : PlantPlacement := placeAt "h1" specsHigh 0 0

/-- Third co-located high-water placement. -/
noncomputable def hp2 : PlantPlacement := placeAt "h2" specsHigh 0 0

/-- Fourth co-located high-water placement. -/
noncomputable def hp3 : PlantPlacement := placeAt "h3" specsHigh 0 0

/-- Medium-water profile for the efficiency-metrics claim. -/
def specsMed : PlantSpecs := simpleSpecs "m" 10 20 .medium 30 50 []

/-- First placement for the efficiency-metrics claim. -/
noncomputable def pM1 : PlantPlacement := placeAt "m1" specsMed 0 0

/-- Second placement for the efficiency-metrics claim. -/
noncomputable def pM2 : PlantPlacement := placeAt "m2" specsMed 0 0

/-- A garden zone of area 10 (the claim's `total zone area`). -/
noncomputable def gzTen : GardenZone :=
  { id := "g", name := "g", area := 10, soil_type := "loam", ph_level := 7,
    sun_exposure := .fullSun, water_availability := 100, elevation := 0,
    slope := 0 }

/-- The pipeline `water_analysis` slice for the two placements above: one
irrigation-zone descriptor (which carries no `'area'` key), perfect
efficiency score. -/
noncomputable def waC6 : WaterAnalysis :=
  { zones := [create_irrigation_zone [pM1, pM2] .medium], efficiency_score := 1 }

/-- An empty conflict report. -/
def emptyConflicts : Conflicts := ⟨[], [], [], []⟩

/-- The metrics computed by the engine for the C6 scenario. -/
noncomputable def metricsC6 : EfficiencyMetrics :=
  calculate_efficiency_metrics [pM1, pM2] waC6 [1, 1] emptyConflicts

/-- Oracle for the mutation counterexample: every `random.random()` gate
fails (`0.5 ≥ 0.1`), every uniform draw is at the top of its range. -/
def rngC7 : Rng :=
  { rnd := fun _ => 1/2, unif := fun _ => 1, smp := fun _ => (0, 0, 0),
    chc := fun _ => 0, rint := fun _ => 0 }

/-! ## Fixtures for the genetic-algorithm run (claim C1)

Two identical zero-spacing plants, one circular zone of radius 2
(`area = 4π`) centered at the origin, and a deterministic oracle:
* `random.random()` always yields `0`  — every crossover gate (`0 < 0.8`)
  and every mutation gate (`0 < 0.1`) fires;
* every uniform draw is at the top of its range — initial angle `2π`,
  initial distance `radius = 2` (placing every plant at `(2, 0)`, on the
  zone boundary), and mutation jitter `+0.5` on each axis;
* `random.sample` always yields indices `(0, 1, 2)`, `random.choice` index
  `0`, and the `randint` stream makes every crossover point `1`. -/

/-- Zero-spacing profile used by the C1 run. -/
def specsGA : PlantSpecs := simpleSpecs "a" 0 0 .low 30 50 []

/-- Circular zone of radius 2 (`area = 4π`) centered at the origin. -/
noncomputable def zoneGA : GardenZone :=
  { id := "zg", name := "zg", area := 4 * Real.pi, soil_type := "loam",
    ph_level := 7, sun_exposure := .fullSun, water_availability := 100,
    elevation := 0, slope := 0 }

/-- The deterministic oracle driving the C1 run. -/
def rngGA : Rng :=
  { rnd := fun _ => 0, unif := fun _ => 1, smp := fun _ => (0, 1, 2),
    chc := fun _ => 0, rint := fun _ => 1 }

/-- The heap object shape occurring in the C1 run: the plant created by
`_create_random_placement` (id suffix `randint = 1001`), at position
`(x, y)`. -/
noncomputable def pGA (x y : ℝ) : PlantPlacement :=
  { plant_id := "a_1001", plant_specs := specsGA, x := x, y := y,
    planted_date := 0, current_stage := .seed }

/-- The complete C1 genetic-algorithm run. -/
noncomputable def gaRun : GAState :=
  optimize_placement_genetic [specsGA, specsGA] [zoneGA] rngGA

/-- The net effect of the C1 run's in-place mutations on a heap object:
both coordinates shifted by `d` (each triggered jitter is `+0.5` on each
axis under the `rngGA` oracle). -/
noncomputable def gaJitter (p : PlantPlacement) (d : ℝ) : PlantPlacement :=
  { p with x := p.x + d, y := p.y + d }

/-! ## Theorems -/

/-- C4: for every profile with `spacing_min ≤ spacing_optimal`,
`calculate_optimal_spacing` yields `spacing_min` at soil quality 1,
`spacing_optimal` at soil quality 0, is monotonically non-increasing in the
soil quality over `[0, 1]`, and never falls below `spacing_min`. -/
theorem C4_optimal_spacing_properties (specs : PlantSpecs)
    (h : specs.spacing_min ≤ specs.spacing_optimal) :
    calculate_optimal_spacing specs 1 = specs.spacing_min ∧
    calculate_optimal_spacing specs 0 = specs.spacing_optimal ∧
    (∀ q1 q2 : ℚ, 0 ≤ q1 → q1 ≤ q2 → q2 ≤ 1 →
      calculate_optimal_spacing specs q2 ≤ calculate_optimal_spacing specs q1) ∧
    (∀ q : ℚ, specs.spacing_min ≤ calculate_optimal_spacing specs q) := by
  refine ⟨?_, ?_, ?_, fun q => le_max_right _ _⟩
  · show max (specs.spacing_optimal +
        (specs.spacing_min - specs.spacing_optimal) * 1) specs.spacing_min =
      specs.spacing_min
    rw [show specs.spacing_optimal + (specs.spacing_min - specs.spacing_optimal) * 1
        = specs.spacing_min by ring, max_self]
  · show max (specs.spacing_optimal +
        (specs.spacing_min - specs.spacing_optimal) * 0) specs.spacing_min =
      specs.spacing_optimal
    rw [mul_zero, add_zero]
    exact max_eq_left h
  · intro q1 q2 _ h12 _
    show max (specs.spacing_optimal + (specs.spacing_min - specs.spacing_optimal) * q2)
        specs.spacing_min ≤
      max (specs.spacing_optimal + (specs.spacing_min - specs.spacing_optimal) * q1)
        specs.spacing_min
    have hs : specs.spacing_min - specs.spacing_optimal ≤ 0 := by linarith
    exact max_le_max (by nlinarith) le_rfl

/-- C4 witness: the 10/20 profile evaluated at concrete soil qualities. -/
theorem C4_optimal_spacing_witness :
    specsSpacing.spacing_min ≤ specsSpacing.spacing_optimal ∧
    calculate_optimal_spacing specsSpacing 1 = specsSpacing.spacing_min ∧
    calculate_optimal_spacing specsSpacing 0 = specsSpacing.spacing_optimal ∧
    specsSpacing.spacing_min ≤ calculate_optimal_spacing specsSpacing (1/2) :=
  ⟨by decide,
   (C4_optimal_spacing_properties specsSpacing (by decide)).1,
   (C4_optimal_spacing_properties specsSpacing (by decide)).2.1,
   (C4_optimal_spacing_properties specsSpacing (by decide)).2.2.2 (1/2)⟩

/-- C5 counterexample: with `width_max = 0` the raw product vanishes, both
results hit the `0.1` floor, and the result does NOT strictly increase with
`et0` — refuting the claim's unconditional strict monotonicity. -/
theorem C5_water_needs_cex :
    (1:ℚ) < 2 ∧
    calculate_water_needs specsWidth0 ⟨some 1⟩ (1/2) .vegetative = 1/10 ∧
    calculate_water_needs specsWidth0 ⟨some 2⟩ (1/2) .vegetative = 1/10 ∧
    ¬ (calculate_water_needs specsWidth0 ⟨some 1⟩ (1/2) .vegetative <
        calculate_water_needs specsWidth0 ⟨some 2⟩ (1/2) .vegetative) := by
  norm_num [calculate_water_needs, waterNeedsRaw, specsWidth0, simpleSpecs,
    kcValue, waterMultiplier, max_def, min_def]

/-- C5 amended: `calculate_water_needs` is always strictly positive (it is
floored at `0.1`), and it strictly increases with `et0` provided the raw
(unfloored) product at the larger `et0` exceeds the `0.1` floor. -/
theorem C5_water_needs_amended (specs : PlantSpecs) (w : WeatherData)
    (sm e1 e2 : ℚ) (st st2 : GrowthStage) :
    0 < calculate_water_needs specs w sm st ∧
    (e1 < e2 → 1/10 < waterNeedsRaw specs ⟨some e2⟩ sm st2 →
      calculate_water_needs specs ⟨some e1⟩ sm st2 <
        calculate_water_needs specs ⟨some e2⟩ sm st2) := by
  constructor
  · exact lt_of_lt_of_le (by norm_num) (le_max_left _ _)
  · intro h12 hfloor
    set K := kcValue st2 * waterMultiplier specs.water_need *
      (max (1/2) (min (3/2) (sm / (3/10)))) * specs.width_max * specs.width_max /
        10000 with hK
    have hraw : ∀ e : ℚ, waterNeedsRaw specs ⟨some e⟩ sm st2 = e * K := by
      intro e
      rw [hK]
      show (some e).getD 5 * kcValue st2 * waterMultiplier specs.water_need *
          (max (1/2) (min (3/2) (sm / (3/10)))) * specs.width_max *
          specs.width_max / 10000 = _
      rw [Option.getD_some]
      ring
    have h1 : 0 < kcValue st2 := by cases st2 <;> norm_num [kcValue]
    have h2 : 0 < waterMultiplier specs.water_need := by
      cases specs.water_need <;> norm_num [waterMultiplier]
    have h3 : (0:ℚ) < max (1/2) (min (3/2) (sm / (3/10))) :=
      lt_of_lt_of_le (by norm_num) (le_max_left _ _)
    have hK0 : 0 ≤ K := by
      rw [hK]
      have h4 : (0:ℚ) ≤ kcValue st2 * waterMultiplier specs.water_need *
          (max (1/2) (min (3/2) (sm / (3/10)))) * specs.width_max *
          specs.width_max := by
        nlinarith [mul_self_nonneg specs.width_max, mul_pos (mul_pos h1 h2) h3]
      exact div_nonneg h4 (by norm_num)
    rw [hraw e2] at hfloor
    have hKpos : 0 < K := by
      rcases hK0.lt_or_eq with hpos | hzero
      · exact hpos
      · rw [← hzero, mul_zero] at hfloor
        norm_num at hfloor
    have hlt : e1 * K < e2 * K := mul_lt_mul_of_pos_right h12 hKpos
    show max (1/10) (waterNeedsRaw specs ⟨some e1⟩ sm st2) <
      max (1/10) (waterNeedsRaw specs ⟨some e2⟩ sm st2)
    rw [hraw e1, hraw e2, max_eq_right (le_of_lt hfloor)]
    exact max_lt hfloor hlt

/-- C5 witness: a 100-cm-wide medium-need plant in the vegetative stage;
the raw product at `et0 = 5` is `4 > 0.1`, so the need strictly increases
from `et0 = 1` to `et0 = 5`. -/
theorem C5_water_needs_witness :
    ((1:ℚ) < 5 ∧ 1/10 < waterNeedsRaw specsWidth100 ⟨some 5⟩ (3/10) .vegetative) ∧
    calculate_water_needs specsWidth100 ⟨some 1⟩ (3/10) .vegetative <
      calculate_water_needs specsWidth100 ⟨some 5⟩ (3/10) .vegetative :=
  ⟨⟨by norm_num,
    by norm_num [waterNeedsRaw, specsWidth100, simpleSpecs, kcValue,
      waterMultiplier, max_def, min_def]⟩,
   (C5_water_needs_amended specsWidth100 ⟨some 5⟩ (3/10) 1 5 .vegetative
       .vegetative).2 (by norm_num)
     (by norm_num [waterNeedsRaw, specsWidth100, simpleSpecs, kcValue,
       waterMultiplier, max_def, min_def])⟩

/-- C2 counterexample: with `growth_days = 0` the truncated
`adjusted_growth_days` is `0` and the source raises `ZeroDivisionError` in
`days_elapsed / adjusted_growth_days` (modelled as `none`) — refuting the
claim's "returns without raising for any `growth_days`". -/
theorem C2_growth_prediction_cex :
    calculate_growth_prediction specsGrowth0 placeGrowth0 {} 0 = none := by
  norm_num [calculate_growth_prediction, pyInt, specsGrowth0, placeGrowth0,
    placeAt, simpleSpecs, max_def, min_def]

/-- C2 amended: whenever a result is returned its `growth_modifier` lies in
`[0.5, 1.5]` (for arbitrary, even out-of-range, stress inputs), and a result
is returned whenever `growth_days ≥ 2` (so that the truncated adjusted days
cannot vanish). -/
theorem C2_growth_prediction_amended (specs : PlantSpecs) (p : PlantPlacement)
    (env : EnvironmentalFactors) (now : ℤ) :
    (∀ r : GrowthPrediction, calculate_growth_prediction specs p env now = some r →
      1/2 ≤ r.growth_modifier ∧ r.growth_modifier ≤ 3/2) ∧
    (2 ≤ specs.growth_days →
      ∃ r : GrowthPrediction, calculate_growth_prediction specs p env now = some r) := by
  constructor
  · intro r hr
    simp only [calculate_growth_prediction] at hr
    split_ifs at hr with h0
    injection hr with hr
    subst hr
    exact ⟨le_max_left _ _, max_le (by norm_num) (min_le_left _ _)⟩
  · intro h2
    simp only [calculate_growth_prediction]
    set ts := (p.water_stress + p.nutrient_stress + env.temperature_stress.getD 0 +
        env.humidity_stress.getD 0) / 4 with hts
    set gm := max (1/2) (min (3/2) ((1:ℚ) - ts * (1/2))) with hgm
    have hgm1 : (1/2 : ℚ) ≤ gm := le_max_left _ _
    have hgm2 : gm ≤ 3/2 := max_le (by norm_num) (min_le_left _ _)
    have hgmpos : (0:ℚ) < gm := lt_of_lt_of_le (by norm_num) hgm1
    have hq : (1:ℚ) ≤ (specs.growth_days : ℚ) / gm := by
      rw [le_div_iff₀ hgmpos, one_mul]
      calc gm ≤ 3/2 := hgm2
        _ ≤ 2 := by norm_num
        _ ≤ (specs.growth_days : ℚ) := by exact_mod_cast h2
    have hpy : pyInt ((specs.growth_days : ℚ) / gm) ≠ 0 := by
      unfold pyInt
      rw [if_pos (le_trans (by norm_num) hq)]
      have h1 : (1:ℤ) ≤ ⌊(specs.growth_days : ℚ) / gm⌋ :=
        Int.le_floor.mpr (by exact_mod_cast hq)
      omega
    rw [if_neg hpy]
    exact ⟨_, rfl⟩

/-- C2 witness: a 30-day profile with zero stresses evaluated 5 days in. -/
theorem C2_growth_prediction_witness :
    (2 ≤ specsGrowth30.growth_days) ∧
    ∃ r : GrowthPrediction,
      calculate_growth_prediction specsGrowth30 placeGrowth30 {} 5 = some r ∧
      1/2 ≤ r.growth_modifier ∧ r.growth_modifier ≤ 3/2 := by
  refine ⟨by decide, ?_⟩
  obtain ⟨r, hr⟩ :=
    (C2_growth_prediction_amended specsGrowth30 placeGrowth30 {} 5).2 (by decide)
  exact ⟨r, hr, (C2_growth_prediction_amended specsGrowth30 placeGrowth30 {} 5).1 r hr⟩

/-- C9: constructing a `PlantSpecs` with `spacing_min > spacing_optimal`,
a self-referential companion set, a self-referential incompatible set, and
overlapping companion/incompatible sets succeeds and preserves all fields —
`__post_init__` performs only collection normalization and raises no
validation error, contradicting the claimed construction-time rejection. -/
theorem C9_no_construction_validation :
    invalidSpecs =
      { name := "x", ptype := .vegetable, spacing_min := 30, spacing_optimal := 10,
        water_need := .low, sun_exposure := .fullSun, growth_days := 50,
        height_max := 10, width_max := 10, root_depth := 10, yield_per_plant := 1,
        companion_plants := ["x", "y"], incompatible_plants := ["x", "z"],
        water_consumption_daily := 0, nutrient_requirements := [],
        frost_tolerance := false, heat_tolerance := false } ∧
    invalidSpecs.spacing_optimal < invalidSpecs.spacing_min ∧
    invalidSpecs.name ∈ invalidSpecs.companion_plants ∧
    invalidSpecs.name ∈ invalidSpecs.incompatible_plants ∧
    invalidSpecs.companion_plants.inter invalidSpecs.incompatible_plants ≠ [] := by
  decide

/-- C6 counterexample: two placements inside a garden zone of total area 10.
The irrigation-zone descriptors carry no `'area'` key, so the engine's
`total_area` falls back to `1.0` and `space_utilization` is the placement
count `2`, not `2/10` as the claim's formula demands; moreover the perfect
scores push the claimed sum to `125`, while the code clamps
`overall_score` to `100`. -/
theorem C6_efficiency_metrics_cex :
    metricsC6.space_utilization = 2 ∧
    ((metricsC6.space_utilization : ℝ) ≠ claimSpaceUtilization [pM1, pM2] [gzTen]) ∧
    metricsC6.overall_score = 100 ∧
    metricsC6.overall_score ≠
      metricsC6.space_utilization * 25 + metricsC6.water_efficiency * 25 +
        metricsC6.solar_efficiency * 25 +
        (1 - min metricsC6.conflict_penalty 1) * 25 := by
  have hne : (([1, 1] : List ℚ)) ≠ [] := by simp
  have hm : metricsC6 =
      { overall_score := 100, space_utilization := 2, water_efficiency := 1,
        solar_efficiency := 1, conflict_penalty := 0, total_plants := 2,
        total_conflicts := 0, avg_water_need := 2 } := by
    norm_num [metricsC6, calculate_efficiency_metrics, waC6, emptyConflicts,
      IrrigationZoneData.areaField, if_neg hne, max_def, min_def, WaterNeed.score,
      specsMed, simpleSpecs, pM1, pM2, placeAt]
  refine ⟨by rw [hm], ?_, by rw [hm], ?_⟩
  · rw [hm]
    norm_num [claimSpaceUtilization, gzTen]
  · rw [hm]
    norm_num [min_def]

/-- C6 amended: since the irrigation-zone descriptors in `water_analysis`
never carry an `'area'` key, the engine's `total_area` is always the `1.0`
fallback, so `space_utilization` equals the placement count; the conflict
penalty is `0.1·#spacing + 0.2·#compatibility + 0.3·#zone`; and
`overall_score` is the claimed 25-point sum CLAMPED to `[0, 100]`. -/
theorem C6_efficiency_metrics_amended (placements : List PlantPlacement)
    (wa : WaterAnalysis) (sa : List ℚ) (conf : Conflicts)
    (h : placements ≠ []) :
    (calculate_efficiency_metrics placements wa sa conf).space_utilization =
      (placements.length : ℚ) ∧
    (calculate_efficiency_metrics placements wa sa conf).conflict_penalty =
      (conf.spacing_violations.length : ℚ) * (1/10) +
        (conf.compatibility_violations.length : ℚ) * (2/10) +
        (conf.zone_violations.length : ℚ) * (3/10) ∧
    (calculate_efficiency_metrics placements wa sa conf).overall_score =
      min 100 (max 0 ((placements.length : ℚ) * 25 + wa.efficiency_score * 25 +
        (if sa = [] then 0 else sa.sum / (sa.length : ℚ)) * 25 +
        (1 - min ((conf.spacing_violations.length : ℚ) * (1/10) +
          (conf.compatibility_violations.length : ℚ) * (2/10) +
          (conf.zone_violations.length : ℚ) * (3/10)) 1) * 25)) := by
  have htot : (wa.zones.map fun z => z.areaField.getD 0).sum = (0 : ℚ) := by
    refine List.sum_eq_zero fun x hx => ?_
    simp only [List.mem_map] at hx
    obtain ⟨z, _, rfl⟩ := hx
    simp [IrrigationZoneData.areaField]
  obtain ⟨p, rest, rfl⟩ : ∃ p rest, placements = p :: rest := by
    cases placements with
    | nil => exact absurd rfl h
    | cons p rest => exact ⟨p, rest, rfl⟩
  simp only [calculate_efficiency_metrics, List.isEmpty_cons, Bool.false_eq_true,
    if_false, htot]
  norm_num

/-- C6 witness: the amended characterization instantiated on the concrete
two-placement scenario. -/
theorem C6_efficiency_metrics_witness :
    ([pM1, pM2] ≠ ([] : List PlantPlacement)) ∧
    metricsC6.space_utilization = (([pM1, pM2].length : ℚ)) :=
  ⟨by simp,
   (C6_efficiency_metrics_amended [pM1, pM2] waC6 [1, 1] emptyConflicts
      (by simp)).1⟩

/-- Appending one placement adds exactly one pair `(q, a)` per existing
placement `q` to the pair sums (at the sum level; the enumeration order in
the source interleaves them differently, but addition commutes). -/
theorem sum_map_orderedPairs_append (f : PlantPlacement × PlantPlacement → ℝ)
    (l : List PlantPlacement) (a : PlantPlacement) :
    ((orderedPairs (l ++ [a])).map f).sum =
      ((orderedPairs l).map f).sum + (l.map fun q => f (q, a)).sum := by
  induction l with
  | nil => simp [orderedPairs]
  | cons p rest ih =>
    simp only [List.cons_append, orderedPairs, List.append_eq, List.map_append,
      List.sum_append, List.map_cons, List.sum_cons, List.map_nil, List.sum_nil,
      ih]
    ring

/-- Every spacing-penalty term is nonnegative. -/
theorem spacingTerm_nonneg (pq : PlantPlacement × PlantPlacement) :
    0 ≤ spacingTerm pq := by
  rw [spacingTerm]
  split_ifs with h
  · nlinarith [h]
  · exact le_refl 0

/-- Every compatibility-penalty term is nonnegative. -/
theorem compatTerm_nonneg (pq : PlantPlacement × PlantPlacement) :
    0 ≤ compatTerm pq := by
  rw [compatTerm]
  split_ifs <;> norm_num

/-- Every zone-penalty term is nonnegative. -/
theorem zoneTerm_nonneg (zs : List GardenZone) (p : PlantPlacement) :
    0 ≤ zoneTerm zs p := by
  rw [zoneTerm]
  split_ifs <;> norm_num

/-- Distance between co-positioned placements vanishes. -/
theorem placementDist_eq_zero (p a : PlantPlacement) (hx : a.x = p.x)
    (hy : a.y = p.y) : placementDist p a = 0 := by
  rw [placementDist, hx, hy]
  simp

/-- C3 counterexample: a single 10/20-spacing plant at the origin of a
radius-1 zone has fitness `10`; appending a duplicate at the exact same
position yields fitness `20 - 1.3 = 18.7` — the `+10` base credit dwarfs
the `0.13 m × 10` duplicate-spacing penalty, so fitness strictly INCREASES,
refuting the claim's strict decrease. -/
theorem C3_duplicate_insertion_cex :
    calculate_fitness [pT] [zonePi] = ((10:ℝ) : WithBot ℝ) ∧
    calculate_fitness [pT, pT] [zonePi] = ((187/10 : ℝ) : WithBot ℝ) ∧
    ¬ (calculate_fitness [pT, pT] [zonePi] < calculate_fitness [pT] [zonePi]) := by
  have hin : isInZone pT zonePi := by
    rw [isInZone]
    have : pT.x - zonePi.coordinates.1 = 0 := by
      simp [pT, placeAt, zonePi]
    rw [this]
    have h2 : pT.y - zonePi.coordinates.2 = 0 := by
      simp [pT, placeAt, zonePi]
    rw [h2]
    simp [Real.sqrt_nonneg]
  have hzt : zoneTerm [zonePi] pT = 0 := by
    rw [zoneTerm, if_pos]
    exact ⟨zonePi, by simp, hin⟩
  have hdist : placementDist pT pT = 0 := placementDist_eq_zero pT pT rfl rfl
  have hcalc : calculate_optimal_spacing specsT (7/10) = 13 := by
    norm_num [calculate_optimal_spacing, specsT, simpleSpecs, max_def]
  have hreq : requiredSpacingM pT = 13/100 := by
    rw [requiredSpacingM]
    norm_num [pT, placeAt, hcalc]
  have hst : spacingTerm (pT, pT) = 13/10 := by
    rw [spacingTerm]
    simp only [hdist, hreq]
    rw [if_pos (by norm_num)]
    norm_num
  have hct : compatTerm (pT, pT) = 0 := by
    rw [compatTerm, if_neg]
    simp [pT, placeAt, specsT, simpleSpecs]
  have h1 : calculate_fitness [pT] [zonePi] = ((10:ℝ) : WithBot ℝ) := by
    rw [calculate_fitness, if_neg (by simp)]
    norm_num [fitnessCore, spacingPenalty, compatibilityPenalty, zonePenalty,
      orderedPairs, hzt]
  have h2 : calculate_fitness [pT, pT] [zonePi] = ((187/10 : ℝ) : WithBot ℝ) := by
    rw [calculate_fitness, if_neg (by simp)]
    norm_num [fitnessCore, spacingPenalty, compatibilityPenalty, zonePenalty,
      orderedPairs, hzt, hst, hct]
  refine ⟨h1, h2, ?_⟩
  rw [h1, h2, WithBot.coe_lt_coe]
  norm_num

/-- C3 amended: the empty candidate has fitness exactly `-∞`; and appending
a duplicate-position placement strictly LOWERS fitness precisely when the
added penalties beat the `+10` base credit — guaranteed whenever the
duplicated placement's required spacing at soil quality 0.7 exceeds 100 cm
(1.0 m).  (For smaller spacings the insertion can raise fitness, as the
counterexample shows.) -/
theorem C3_fitness_amended :
    (∀ zs : List GardenZone, calculate_fitness [] zs = ⊥) ∧
    ∀ (l : List PlantPlacement) (zs : List GardenZone) (k : Nat)
      (hk : k < l.length) (a : PlantPlacement),
      a.x = (l.get ⟨k, hk⟩).x → a.y = (l.get ⟨k, hk⟩).y →
      1 < calculate_optimal_spacing (l.get ⟨k, hk⟩).plant_specs (7/10) / 100 →
      calculate_fitness (l ++ [a]) zs < calculate_fitness l zs := by
  constructor
  · intro zs
    rw [calculate_fitness, if_pos rfl]
  · intro l zs k hk a hx hy hreq
    have hlne : l ≠ [] := by
      intro h
      subst h
      exact absurd hk (by simp)
    rw [calculate_fitness, calculate_fitness, if_neg (by simp), if_neg hlne,
      WithBot.coe_lt_coe]
    set p := l.get ⟨k, hk⟩ with hp
    have hdist : placementDist p a = 0 := placementDist_eq_zero p a hx hy
    have hreqR : (1:ℝ) < requiredSpacingM p := by
      rw [requiredSpacingM]
      have : ((1:ℚ):ℝ) < ((calculate_optimal_spacing p.plant_specs (7/10) / 100 : ℚ) : ℝ) := by
        exact_mod_cast hreq
      push_cast at this
      linarith
    have hterm : spacingTerm (p, a) = requiredSpacingM p * 10 := by
      rw [spacingTerm]
      simp only [hdist]
      rw [if_pos (by linarith)]
      rw [sub_zero]
    have hS : requiredSpacingM p * 10 ≤ (l.map fun q => spacingTerm (q, a)).sum := by
      rw [← hterm]
      refine List.single_le_sum (fun x hx' => ?_) _ (List.mem_map_of_mem _ (l.get_mem _ _))
      obtain ⟨q, _, rfl⟩ := List.mem_map.mp hx'
      exact spacingTerm_nonneg _
    have hC : 0 ≤ (l.map fun q => compatTerm (q, a)).sum :=
      List.sum_nonneg fun x hx' => by
        obtain ⟨q, _, rfl⟩ := List.mem_map.mp hx'
        exact compatTerm_nonneg _
    have hZ : 0 ≤ zoneTerm zs a := zoneTerm_nonneg zs a
    rw [fitnessCore, fitnessCore, spacingPenalty, spacingPenalty,
      compatibilityPenalty, compatibilityPenalty,
      sum_map_orderedPairs_append, sum_map_orderedPairs_append]
    have hzp : zonePenalty (l ++ [a]) zs = zonePenalty l zs + zoneTerm zs a := by
      rw [zonePenalty, zonePenalty]
      simp
    rw [hzp]
    have hlen : ((l ++ [a]).length : ℝ) = (l.length : ℝ) + 1 := by
      push_cast [List.length_append]
      norm_num
    rw [hlen]
    have h10 : (10:ℝ) < requiredSpacingM p * 10 := by linarith
    linarith

/-- C3 witness: a 200-cm-spacing plant (required spacing 2.0 m), duplicated
at the origin — the amended theorem applies and fitness strictly drops. -/
theorem C3_fitness_witness :
    (0 < ([pBig] : List PlantPlacement).length ∧
      pBigDup.x = (([pBig] : List PlantPlacement).get ⟨0, by simp⟩).x ∧
      1 < calculate_optimal_spacing
        ((([pBig] : List PlantPlacement).get ⟨0, by simp⟩).plant_specs) (7/10) / 100) ∧
    calculate_fitness ([pBig] ++ [pBigDup]) [] < calculate_fitness [pBig] [] :=
  ⟨⟨by simp, rfl,
    by norm_num [calculate_optimal_spacing, pBig, placeAt, specsBig, simpleSpecs,
      max_def]⟩,
   C3_fitness_amended.2 [pBig] [] 0 (by simp) pBigDup rfl rfl
     (by norm_num [calculate_optimal_spacing, pBig, placeAt, specsBig, simpleSpecs,
       max_def])⟩

/-- C10: the pairwise spacing threshold in the conflict detector is derived
solely from the FIRST (earlier-indexed) placement's profile at soil quality
0.7 (first conjunct, for arbitrary pairs); consequently, for the concrete
pair `A` (200 cm spacing) at the origin and `B` (10 cm spacing) at distance
1, order `[A, B]` reports one spacing violation while the reversed order
`[B, A]` reports none, and the optimizer fitness differs between the two
orders (`-190` vs `-180` with no zones). -/
theorem C10_spacing_pair_asymmetry :
    (∀ p q : PlantPlacement,
      spacingViolationsOf [p, q] =
        if placementDist p q < requiredSpacingM p then
          [{ plant1 := p.plant_id, plant2 := q.plant_id,
             current_distance := placementDist p q,
             required_distance := requiredSpacingM p,
             severity := if placementDist p q < requiredSpacingM p * (1/2)
               then "high" else "medium" }]
        else []) ∧
    spacingViolationsOf [pA200, pB10] =
      [{ plant1 := "A1", plant2 := "B1", current_distance := 1,
         required_distance := 2, severity := "medium" }] ∧
    spacingViolationsOf [pB10, pA200] = [] ∧
    calculate_fitness [pA200, pB10] [] ≠ calculate_fitness [pB10, pA200] [] := by
  have hpairs : ∀ p q : PlantPlacement, orderedPairs [p, q] = [(p, q)] := by
    intro p q
    simp [orderedPairs]
  have hgen : ∀ p q : PlantPlacement,
      spacingViolationsOf [p, q] =
        if placementDist p q < requiredSpacingM p then
          [{ plant1 := p.plant_id, plant2 := q.plant_id,
             current_distance := placementDist p q,
             required_distance := requiredSpacingM p,
             severity := if placementDist p q < requiredSpacingM p * (1/2)
               then "high" else "medium" }]
        else [] := by
    intro p q
    by_cases h : placementDist p q < requiredSpacingM p
    · rw [if_pos h]
      simp only [spacingViolationsOf, hpairs, List.filterMap_cons,
        List.filterMap_nil, if_pos h]
    · rw [if_neg h]
      simp only [spacingViolationsOf, hpairs, List.filterMap_cons,
        List.filterMap_nil, if_neg h]
  have hdAB : placementDist pA200 pB10 = 1 := by
    rw [placementDist]
    norm_num [pA200, pB10, placeAt]
  have hdBA : placementDist pB10 pA200 = 1 := by
    rw [placementDist]
    norm_num [pA200, pB10, placeAt]
  have hrA : requiredSpacingM pA200 = 2 := by
    rw [requiredSpacingM]
    norm_num [pA200, placeAt, calculate_optimal_spacing, specsA200, simpleSpecs,
      max_def]
  have hrB : requiredSpacingM pB10 = 1/10 := by
    rw [requiredSpacingM]
    norm_num [pB10, placeAt, calculate_optimal_spacing, specsB10, simpleSpecs,
      max_def]
  have hzt : ∀ p : PlantPlacement, zoneTerm [] p = 100 := by
    intro p
    rw [zoneTerm, if_neg]
    simp
  refine ⟨hgen, ?_, ?_, ?_⟩
  · rw [hgen, hdAB, hrA, if_pos (by norm_num)]
    norm_num [pA200, pB10, placeAt]
  · rw [hgen, hdBA, hrB, if_neg (by norm_num)]
  · have hstAB : spacingTerm (pA200, pB10) = 10 := by
      rw [spacingTerm]
      simp only [hdAB, hrA]
      rw [if_pos (by norm_num)]
      norm_num
    have hstBA : spacingTerm (pB10, pA200) = 0 := by
      rw [spacingTerm]
      simp only [hdBA, hrB]
      rw [if_neg (by norm_num)]
    have hctAB : compatTerm (pA200, pB10) = 0 := by
      rw [compatTerm, if_neg]
      simp [pA200, pB10, placeAt, specsA200, specsB10, simpleSpecs]
    have hctBA : compatTerm (pB10, pA200) = 0 := by
      rw [compatTerm, if_neg]
      simp [pA200, pB10, placeAt, specsA200, specsB10, simpleSpecs]
    have hAB : calculate_fitness [pA200, pB10] [] = ((-190 : ℝ) : WithBot ℝ) := by
      rw [calculate_fitness, if_neg (by simp)]
      norm_num [fitnessCore, spacingPenalty, compatibilityPenalty, zonePenalty,
        hpairs, hstAB, hctAB, hzt]
    have hBA : calculate_fitness [pB10, pA200] [] = ((-180 : ℝ) : WithBot ℝ) := by
      rw [calculate_fitness, if_neg (by simp)]
      norm_num [fitnessCore, spacingPenalty, compatibilityPenalty, zonePenalty,
        hpairs, hstBA, hctBA, hzt]
    rw [hAB, hBA, Ne, WithBot.coe_eq_coe]
    norm_num

/-- Distance between any two of the co-located high-water placements. -/
theorem hp_dist_zero :
    placementDist hp0 hp1 = 0 ∧ placementDist hp0 hp2 = 0 ∧
    placementDist hp0 hp3 = 0 ∧ placementDist hp1 hp2 = 0 ∧
    placementDist hp1 hp3 = 0 ∧ placementDist hp2 hp3 = 0 := by
  refine ⟨?_, ?_, ?_, ?_, ?_, ?_⟩ <;>
    · rw [placementDist]
      norm_num [hp0, hp1, hp2, hp3, placeAt]

/-- `high_water_plants` accumulated for `hp0` over the three later plants. -/
theorem laterHigh_hp0 :
    laterHighWaterIds hp0 [hp1, hp2, hp3] = ["h1", "h2", "h3"] := by
  have c1 : placementDist hp0 hp1 < 1 ∧
      hp0.plant_specs.water_need = WaterNeed.high ∧
      hp1.plant_specs.water_need = WaterNeed.high :=
    ⟨by rw [hp_dist_zero.1]; norm_num, rfl, rfl⟩
  have c2 : placementDist hp0 hp2 < 1 ∧
      hp0.plant_specs.water_need = WaterNeed.high ∧
      hp2.plant_specs.water_need = WaterNeed.high :=
    ⟨by rw [hp_dist_zero.2.1]; norm_num, rfl, rfl⟩
  have c3 : placementDist hp0 hp3 < 1 ∧
      hp0.plant_specs.water_need = WaterNeed.high ∧
      hp3.plant_specs.water_need = WaterNeed.high :=
    ⟨by rw [hp_dist_zero.2.2.1]; norm_num, rfl, rfl⟩
  rw [laterHighWaterIds]
  simp only [List.filterMap_cons, List.filterMap_nil, if_pos c1, if_pos c2,
    if_pos c3]
  rfl

/-- `high_water_plants` accumulated for `hp1` over the two later plants. -/
theorem laterHigh_hp1 :
    laterHighWaterIds hp1 [hp2, hp3] = ["h2", "h3"] := by
  have c2 : placementDist hp1 hp2 < 1 ∧
      hp1.plant_specs.water_need = WaterNeed.high ∧
      hp2.plant_specs.water_need = WaterNeed.high :=
    ⟨by rw [hp_dist_zero.2.2.2.1]; norm_num, rfl, rfl⟩
  have c3 : placementDist hp1 hp3 < 1 ∧
      hp1.plant_specs.water_need = WaterNeed.high ∧
      hp3.plant_specs.water_need = WaterNeed.high :=
    ⟨by rw [hp_dist_zero.2.2.2.2.1]; norm_num, rfl, rfl⟩
  rw [laterHighWaterIds]
  simp only [List.filterMap_cons, List.filterMap_nil, if_pos c2, if_pos c3]
  rfl

/-- `high_water_plants` accumulated for `hp2` over the one later plant. -/
theorem laterHigh_hp2 : laterHighWaterIds hp2 [hp3] = ["h3"] := by
  have c3 : placementDist hp2 hp3 < 1 ∧
      hp2.plant_specs.water_need = WaterNeed.high ∧
      hp3.plant_specs.water_need = WaterNeed.high :=
    ⟨by rw [hp_dist_zero.2.2.2.2.2]; norm_num, rfl, rfl⟩
  rw [laterHighWaterIds]
  simp only [List.filterMap_cons, List.filterMap_nil, if_pos c3]
  rfl

/-- `high_water_plants` accumulated for the last plant (no later plants). -/
theorem laterHigh_hp3 : laterHighWaterIds hp3 [] = [] := rfl

/-- C8 counterexample: four co-located high-water plants.  The source only
counts LATER-indexed neighbours, so it reports exactly ONE conflict (for the
head `h0`), although `h1` also has three other high-water plants within 1.0
unit — the claim's "exactly when strictly more than 2 other placements"
predicts a conflict naming `h1` as its focal plant too. -/
theorem C8_water_conflict_cex :
    detectWaterConflicts [hp0, hp1, hp2, hp3] =
      [waterConflictRecord hp0 ["h1", "h2", "h3"]] ∧
    2 < (claimNearbyHighIds [hp0, hp1, hp2, hp3] 1).length ∧
    ¬ ∃ c ∈ detectWaterConflicts [hp0, hp1, hp2, hp3],
        c.plants.head? = some "h1" := by
  have hrun : detectWaterConflicts [hp0, hp1, hp2, hp3] =
      [waterConflictRecord hp0 ["h1", "h2", "h3"]] := by
    simp only [detectWaterConflicts, laterHigh_hp0, laterHigh_hp1, laterHigh_hp2,
      laterHigh_hp3]
    norm_num
  refine ⟨hrun, ?_, ?_⟩
  · have h10 : placementDist hp1 hp0 = 0 := by
      rw [placementDist]
      norm_num [hp0, hp1, placeAt]
    have hget : ([hp0, hp1, hp2, hp3].getD 1 defaultPlacement) = hp1 := by
      simp [List.getD]
    have c0 : placementDist hp1 hp0 < 1 ∧
        hp1.plant_specs.water_need = WaterNeed.high ∧
        hp0.plant_specs.water_need = WaterNeed.high :=
      ⟨by rw [h10]; norm_num, rfl, rfl⟩
    have c2 : placementDist hp1 hp2 < 1 ∧
        hp1.plant_specs.water_need = WaterNeed.high ∧
        hp2.plant_specs.water_need = WaterNeed.high :=
      ⟨by rw [hp_dist_zero.2.2.2.1]; norm_num, rfl, rfl⟩
    have c3 : placementDist hp1 hp3 < 1 ∧
        hp1.plant_specs.water_need = WaterNeed.high ∧
        hp3.plant_specs.water_need = WaterNeed.high :=
      ⟨by rw [hp_dist_zero.2.2.2.2.1]; norm_num, rfl, rfl⟩
    rw [claimNearbyHighIds]
    simp only [hget, List.eraseIdx]
    simp only [List.filterMap_cons, List.filterMap_nil, if_pos c0, if_pos c2,
      if_pos c3]
    norm_num
  · rw [hrun]
    simp [waterConflictRecord, hp0, placeAt]

/-- C8 amended: a `water_competition` conflict is reported exactly for those
placements with strictly more than 2 LATER-indexed high-water-need
placements within 1.0 unit, and it names the focal plant followed by those
later plants' ids. -/
theorem C8_water_conflicts_amended (placements : List PlantPlacement)
    (c : ResourceConflict) :
    c ∈ detectWaterConflicts placements ↔
      ∃ i, ∃ h : i < placements.length,
        2 < (laterHighWaterIds (placements.get ⟨i, h⟩)
              (placements.drop (i + 1))).length ∧
        c = waterConflictRecord (placements.get ⟨i, h⟩)
              (laterHighWaterIds (placements.get ⟨i, h⟩)
                (placements.drop (i + 1))) := by
  induction placements with
  | nil => simp [detectWaterConflicts]
  | cons p rest ih =>
    rw [detectWaterConflicts, List.mem_append]
    constructor
    · rintro (hc | hc)
      · by_cases h : 2 < (laterHighWaterIds p rest).length
        · rw [if_pos h] at hc
          simp only [List.mem_singleton] at hc
          exact ⟨0, by simp, h, hc⟩
        · rw [if_neg h] at hc
          simp at hc
      · obtain ⟨i, hi, hlen, hcr⟩ := ih.mp hc
        exact ⟨i + 1, Nat.succ_lt_succ hi, hlen, hcr⟩
    · rintro ⟨i, hi, hlen, hcr⟩
      cases i with
      | zero =>
        left
        have hlen' : 2 < (laterHighWaterIds p rest).length := hlen
        have hcr' : c = waterConflictRecord p (laterHighWaterIds p rest) := hcr
        rw [if_pos hlen']
        subst hcr'
        exact List.mem_singleton.mpr rfl
      | succ j =>
        right
        exact ih.mpr ⟨j, Nat.lt_of_succ_lt_succ hi, hlen, hcr⟩

/-- C8 witness: the amended characterization instantiated at the head of the
four-plant fixture. -/
theorem C8_water_conflicts_witness :
    waterConflictRecord hp0 ["h1", "h2", "h3"] ∈
      detectWaterConflicts [hp0, hp1, hp2, hp3] := by
  apply (C8_water_conflicts_amended [hp0, hp1, hp2, hp3] _).mpr
  refine ⟨0, by norm_num, ?_, ?_⟩
  · show 2 < (laterHighWaterIds hp0 [hp1, hp2, hp3]).length
    rw [laterHigh_hp0]
    norm_num
  · show _ = waterConflictRecord hp0 (laterHighWaterIds hp0 [hp1, hp2, hp3])
    rw [laterHigh_hp0]

/-- C7 counterexample: an individual of one placement under an oracle whose
`random.random()` stream is constantly `0.5`.  The source `_mutate` leaves
the placement untouched (its per-placement 10% gate fails), while the
claim's "every placement jitters once mutation is applied" semantics would
move it by `+0.5` — the two disagree, refuting the whole-individual-jitter
reading. -/
theorem C7_mutation_cex :
    (mutateFn [0] [pT] rngC7 {}).1 = [pT] ∧
    ((mutateEveryPlacementClaim rngC7 [0] ([pT], {})).1.getD 0 defaultPlacement).x
      = pT.x + 1/2 ∧
    (mutateFn [0] [pT] rngC7 {}).1 ≠
      (mutateEveryPlacementClaim rngC7 [0] ([pT], {})).1 := by
  have h1 : (mutateFn [0] [pT] rngC7 {}).1 = [pT] := by
    norm_num [mutateFn, mutateAux, drawRnd, rngC7]
  have h2 : ((mutateEveryPlacementClaim rngC7 [0] ([pT], {})).1.getD 0
      defaultPlacement).x = pT.x + 1/2 := by
    norm_num [mutateEveryPlacementClaim, drawUnif, rngC7, modifyAt]
  refine ⟨h1, h2, ?_⟩
  intro h
  have hx := congrArg (fun l => (l.getD 0 defaultPlacement).x) h
  simp only at hx
  rw [h1, h2] at hx
  simp only [List.getD_cons_zero] at hx
  rw [show pT.x = (0:ℝ) from rfl] at hx
  norm_num at hx

/-- C7 amended: the offspring-level mutation rate is `0.1`, and `_mutate`
then applies an independent per-placement 10% gate: a single-placement
individual is jittered (by `uniform(-0.5, 0.5)` on each of `x` and `y`)
exactly when its own `random.random()` draw is below `0.1`, and is left
untouched otherwise. -/
theorem C7_mutation_amended :
    mutationRate = 1/10 ∧
    ∀ (r : Rng) (c : Cnt) (store : List PlantPlacement) (j : Nat),
      mutateFn [j] store r c =
        if r.rnd c.rnd < 1/10 then
          (modifyAt store j fun p =>
            { p with
              x := p.x + (-(1/2) + (1/2 - -(1/2)) * ((r.unif c.unif : ℚ) : ℝ)),
              y := p.y + (-(1/2) + (1/2 - -(1/2)) * ((r.unif (c.unif + 1) : ℚ) : ℝ)) },
           { c with rnd := c.rnd + 1, unif := c.unif + 1 + 1 })
        else (store, { c with rnd := c.rnd + 1 }) := by
  refine ⟨rfl, ?_⟩
  intro r c store j
  simp only [mutateFn, mutateAux, drawRnd, drawUnif]

/-! ### The C1 run, step by step

Under the `rngGA` oracle every generation behaves identically: the winner of
every tournament is `population[0]`, crossover at point 1 maps `([0,1], [0,1])`
to itself, and both mutation gates fire, jittering heap objects `0` and `1`
by `+0.5` on each axis twice per pairing — `+25` per generation.  The running
best (`[0,1]`, recorded in generation 0 with fitness 20 at position `(2,0)`)
aliases those same two heap objects, so the returned candidate ends at
position `(2502, 2500)`, far outside the zone, with fitness `-180 ≠ 20`. -/

/-- Generic `getD` on a replicated list. -/
theorem getD_replicate {α : Type} (n : Nat) (a d : α) :
    ∀ i : Nat, i < n → (List.replicate n a).getD i d = a := by
  induction n with
  | zero => intro i hi; exact absurd hi (by simp)
  | succ m ih =>
    intro i hi
    cases i with
    | zero => rfl
    | succ j => exact ih j (Nat.lt_of_succ_lt_succ hi)

/-- Jitters compose additively. -/
theorem gaJitter_jitter (p : PlantPlacement) (d e : ℝ) :
    gaJitter (gaJitter p d) e = gaJitter p (d + e) := by
  rw [gaJitter, gaJitter, gaJitter]
  ext <;> simp <;> ring

/-- A jittered run placement is the run placement at the shifted position. -/
theorem gaJitter_pGA (x y d : ℝ) : gaJitter (pGA x y) d = pGA (x + d) (y + d) := rfl

/-- The run zone's effective radius is 2. -/
theorem gaZoneRadius : Real.sqrt (zoneGA.area / Real.pi) = 2 := by
  rw [show zoneGA.area = 4 * Real.pi from rfl, mul_div_assoc,
    div_self Real.pi_ne_zero, mul_one,
    show (4:ℝ) = 2 ^ 2 by norm_num, Real.sqrt_sq (by norm_num : (0:ℝ) ≤ 2)]

/-- `_create_random_placement` under the `rngGA` oracle always creates the
plant at `(2, 0)`: angle `2π`, distance `= radius = 2`. -/
theorem gaCreate (c : Cnt) :
    ∃ c', create_random_placement specsGA [zoneGA] rngGA c = (pGA 2 0, c') := by
  apply Exists.intro
  rw [create_random_placement]
  simp only [drawChc, drawUnif, pyRandint, rngGA, List.length_cons,
    List.length_nil, Nat.zero_mod, List.getD_cons_zero]
  rw [Prod.mk.injEq]
  refine ⟨?_, rfl⟩
  rw [gaZoneRadius,
    show (0:ℝ) + (2 * Real.pi - 0) * ((1:ℚ):ℝ) = 2 * Real.pi from by
      push_cast
      ring]
  ext
  · rfl
  · rfl
  · rw [Real.cos_two_pi]
    show zoneGA.coordinates.1 + (0 + (2 - 0) * ((1:ℚ):ℝ)) * 1 = 2
    rw [show zoneGA.coordinates.1 = 0 from rfl]
    push_cast
    ring
  · rw [Real.sin_two_pi]
    show zoneGA.coordinates.2 + (0 + (2 - 0) * ((1:ℚ):ℝ)) * 0 = 0
    rw [show zoneGA.coordinates.2 = 0 from rfl]
    push_cast
    ring
  · rfl
  · rfl
  · rfl
  · rfl
  · rfl

/-- One individual of the initial population: two fresh `(2, 0)` objects. -/
theorem gaInitIndividual (ids : List Nat) (s : List PlantPlacement) (c : Cnt) :
    ∃ c', initIndividualAux [zoneGA] rngGA [specsGA, specsGA] (ids, s, c) =
      (ids ++ [s.length, s.length + 1], s ++ [pGA 2 0, pGA 2 0], c') := by
  obtain ⟨c1, h1⟩ := gaCreate c
  obtain ⟨c2, h2⟩ := gaCreate c1
  refine ⟨c2, ?_⟩
  simp only [initIndividualAux, h1, h2]
  simp [List.length_append]

/-- The whole initial population: `n` individuals appended to `pop`, each a
pair of fresh consecutive ids, all heap objects at `(2, 0)`. -/
theorem gaInitPop (n : Nat) :
    ∀ (pop : List (List Nat)) (s : List PlantPlacement) (c : Cnt),
    ∃ c', initPopulationAux [specsGA, specsGA] [zoneGA] rngGA n (pop, s, c) =
      (pop ++ (List.range n).map (fun i => [s.length + 2*i, s.length + 2*i + 1]),
       s ++ List.replicate (2*n) (pGA 2 0), c') := by
  induction n with
  | zero =>
    intro pop s c
    refine ⟨c, ?_⟩
    simp [initPopulationAux]
  | succ m ih =>
    intro pop s c
    obtain ⟨c1, h1⟩ := gaInitIndividual [] s c
    obtain ⟨c2, h2⟩ := ih (pop ++ [[s.length, s.length + 1]])
      (s ++ [pGA 2 0, pGA 2 0]) c1
    rw [initPopulationAux, h1]
    simp only [List.nil_append] at h2 ⊢
    rw [h2]
    refine ⟨c2, ?_⟩
    rw [Prod.mk.injEq, Prod.mk.injEq]
    refine ⟨?_, ?_, rfl⟩
    · rw [List.append_assoc]
      congr 1
      rw [List.range_succ_eq_map, List.map_cons, List.map_map,
        List.singleton_append]
      congr 1
      refine List.map_congr_left fun i _ => ?_
      simp only [Function.comp_apply, List.length_append, List.length_cons,
        List.length_nil, List.cons.injEq]
      refine ⟨by omega, by omega, trivial⟩
    · rw [show 2 * (m + 1) = (2 * m) + 1 + 1 by ring, List.replicate_succ,
        List.replicate_succ, List.append_assoc]
      rfl

/-- Zone membership of a run placement: inside iff `x² + y² ≤ 4`. -/
theorem gaInZone (x y : ℝ) : isInZone (pGA x y) zoneGA ↔ x^2 + y^2 ≤ 4 := by
  rw [isInZone]
  rw [show (pGA x y).x = x from rfl, show (pGA x y).y = y from rfl,
    show zoneGA.coordinates.1 = 0 from rfl, show zoneGA.coordinates.2 = 0 from rfl,
    gaZoneRadius, sub_zero, sub_zero]
  rw [show (2:ℝ) = Real.sqrt 4 from by
    rw [show (4:ℝ) = 2 ^ 2 by norm_num, Real.sqrt_sq (by norm_num : (0:ℝ) ≤ 2)]]
  exact Real.sqrt_le_sqrt_iff (by norm_num)

/-- Fitness of a run individual (both plants co-located at `(x, y)`): `20`
when inside the zone, `-180` (two 100-point zone penalties) outside; the
zero-spacing profile contributes no spacing or compatibility penalty. -/
theorem gaFitnessPair (x y : ℝ) :
    calculate_fitness [pGA x y, pGA x y] [zoneGA] =
      if x^2 + y^2 ≤ 4 then ((20:ℝ) : WithBot ℝ) else ((-180:ℝ) : WithBot ℝ) := by
  have hreq : requiredSpacingM (pGA x y) = 0 := by
    rw [requiredSpacingM]
    norm_num [pGA, calculate_optimal_spacing, specsGA, simpleSpecs, max_def]
  have hdist : placementDist (pGA x y) (pGA x y) = 0 :=
    placementDist_eq_zero _ _ rfl rfl
  have hst : spacingTerm (pGA x y, pGA x y) = 0 := by
    rw [spacingTerm]
    simp only [hdist, hreq]
    rw [if_neg (by norm_num)]
  have hct : compatTerm (pGA x y, pGA x y) = 0 := by
    rw [compatTerm, if_neg]
    simp [pGA, specsGA, simpleSpecs]
  have hzt : zoneTerm [zoneGA] (pGA x y) = if x^2 + y^2 ≤ 4 then 0 else 100 := by
    rw [zoneTerm]
    by_cases h : x^2 + y^2 ≤ 4
    · rw [if_pos h, if_pos]
      exact ⟨zoneGA, by simp, (gaInZone x y).mpr h⟩
    · rw [if_neg h, if_neg]
      rintro ⟨z, hz, hin⟩
      simp only [List.mem_singleton] at hz
      subst hz
      exact h ((gaInZone x y).mp hin)
  rw [calculate_fitness, if_neg (by simp), fitnessCore, spacingPenalty,
    compatibilityPenalty, zonePenalty]
  simp only [orderedPairs, List.map_nil, List.map_cons, List.append_nil,
    List.nil_append, List.sum_cons, List.sum_nil, hst, hct, hzt,
    List.length_cons, List.length_nil]
  by_cases h : x^2 + y^2 ≤ 4
  · rw [if_pos h, if_pos h]
    norm_num
  · rw [if_neg h, if_neg h]
    norm_num

/-- The evaluation loop where every individual scores `f` and the running
best is not beaten: scores collected, best untouched. -/
theorem gaEvalConst (store : List PlantPlacement) (zones : List GardenZone)
    (f : WithBot ℝ) :
    ∀ (pop : List (List Nat)) (bf : WithBot ℝ) (bs : Option (List Nat)),
    (∀ ind ∈ pop, fitnessIds store ind zones = f) → ¬ (bf < f) →
    evalLoop store zones pop bf bs = (List.replicate pop.length f, bf, bs) := by
  intro pop
  induction pop with
  | nil =>
    intro bf bs _ _
    rfl
  | cons ind rest ih =>
    intro bf bs hall hbf
    simp only [evalLoop, hall ind (List.mem_cons_self ind rest), if_neg hbf,
      ih bf bs (fun i hi => hall i (List.mem_cons_of_mem _ hi)) hbf,
      List.length_cons, List.replicate_succ]

/-- The generation-0 evaluation loop: every individual scores `v`, the first
one immediately beats `-∞` and is recorded (by a shallow copy) as best. -/
theorem gaEvalFirst (store : List PlantPlacement) (zones : List GardenZone)
    (v : ℝ) (ind0 : List Nat) (rest : List (List Nat))
    (hall : ∀ ind ∈ ind0 :: rest, fitnessIds store ind zones = ((v:ℝ) : WithBot ℝ)) :
    evalLoop store zones (ind0 :: rest) ⊥ none =
      (List.replicate (rest.length + 1) ((v:ℝ) : WithBot ℝ),
       ((v:ℝ) : WithBot ℝ), some ind0) := by
  simp only [evalLoop, hall ind0 (List.mem_cons_self ind0 rest),
    if_pos (WithBot.bot_lt_coe v),
    gaEvalConst store zones _ rest _ (some ind0)
      (fun i hi => hall i (List.mem_cons_of_mem _ hi)) (lt_irrefl _),
    List.replicate_succ]

/-- Python `max` of three equal (finite) scores. -/
theorem pyMax_const3 (v : ℝ) :
    pyMax [((v:ℝ) : WithBot ℝ), ((v:ℝ) : WithBot ℝ), ((v:ℝ) : WithBot ℝ)] =
      ((v:ℝ) : WithBot ℝ) := by
  rw [pyMax, pyMaxAux, if_pos (WithBot.bot_lt_coe v), pyMaxAux,
    if_neg (lt_irrefl _), pyMaxAux, if_neg (lt_irrefl _), pyMaxAux]

/-- Tournament selection under `rngGA` with 50 equal scores: the sample is
`(0, 1, 2)`, all tournament fitness values tie, `list.index(max)` returns
`0`, and the winner is `population[0]`. -/
theorem gaTournament (pop : List (List Nat)) (v : ℝ) (c : Cnt)
    (hn : pop.length = 50) :
    ∃ c', tournament_selection pop
        (List.replicate 50 ((v:ℝ) : WithBot ℝ)) rngGA c = (pop.getD 0 [], c') := by
  apply Exists.intro
  rw [tournament_selection]
  simp only [drawSmp, rngGA, hn]
  rw [show (0 % 50 : Nat) = 0 from by norm_num,
    show (1 % 50 : Nat) = 1 from by norm_num,
    show (2 % 50 : Nat) = 2 from by norm_num]
  simp only [List.map_cons, List.map_nil,
    getD_replicate 50 ((v:ℝ) : WithBot ℝ) ⊥ 0 (by norm_num),
    getD_replicate 50 ((v:ℝ) : WithBot ℝ) ⊥ 1 (by norm_num),
    getD_replicate 50 ((v:ℝ) : WithBot ℝ) ⊥ 2 (by norm_num),
    pyMax_const3 v, pyIndex, if_pos rfl, if_true, eq_self_iff_true,
    List.getD_cons_zero]
  rfl

/-- Crossover of the individual `[a, b]` with itself under `rngGA`: the cut
point is `randint(1, 1) = 1` and both children are `[a, b]` again. -/
theorem gaCrossover (a b : Nat) (c : Cnt) :
    ∃ c', crossoverFn [a, b] [a, b] rngGA c = (([a, b], [a, b]), c') := by
  apply Exists.intro
  rw [crossoverFn, if_neg (by simp)]
  simp only [pyRandint, rngGA, List.length_cons, List.length_nil]
  norm_num
  rfl

/-- `_mutate` of the individual `[0, 1]` under `rngGA`: both per-placement
gates fire (`0 < 0.1`) and heap objects 0 and 1 are each jittered by
`(+0.5, +0.5)` in place; the rest of the heap is untouched. -/
theorem gaMutate (p0 p1 : PlantPlacement) (rest : List PlantPlacement) (c : Cnt) :
    ∃ c', mutateFn [0, 1] (p0 :: p1 :: rest) rngGA c =
      (gaJitter p0 (1/2) :: gaJitter p1 (1/2) :: rest, c') := by
  apply Exists.intro
  rw [mutateFn, mutateAux]
  simp only [drawRnd, drawUnif, rngGA]
  rw [if_pos (by norm_num : (0:ℚ) < 1/10)]
  simp only [modifyAt, List.getD_cons_zero, List.set_cons_zero]
  rw [mutateAux]
  simp only [drawRnd, drawUnif, rngGA]
  rw [if_pos (by norm_num : (0:ℚ) < 1/10)]
  simp only [modifyAt, List.getD_cons_succ, List.getD_cons_zero,
    List.set_cons_succ, List.set_cons_zero, mutateAux]
  rw [Prod.mk.injEq]
  refine ⟨?_, rfl⟩
  rw [List.cons.injEq, List.cons.injEq]
  refine ⟨?_, ?_, rfl⟩ <;>
    · rw [gaJitter]
      ext <;> first
        | rfl
        | (push_cast; ring)

/-- A zero jitter is the identity. -/
theorem gaJitter_zero (p : PlantPlacement) : gaJitter p 0 = p := by
  rw [gaJitter]
  ext <;> simp

/-- The `random.random()` stream of the C1 oracle is constantly `0`. -/
theorem rngGA_rnd (k : Nat) : rngGA.rnd k = 0 := rfl

/-- One offspring pairing under `rngGA`: both tournaments return
`population[0] = [0, 1]`, crossover reproduces `([0,1], [0,1])`, and both
children mutate, jittering heap objects 0 and 1 by `+1` on each axis in
total. -/
theorem gaPairing (pop : List (List Nat)) (v : ℝ) (acc : List (List Nat))
    (p0 p1 : PlantPlacement) (rest : List PlantPlacement) (c : Cnt)
    (hn : pop.length = 50) (h0 : pop.getD 0 [] = [0, 1]) :
    ∃ c', pairingStep pop (List.replicate 50 ((v:ℝ) : WithBot ℝ)) rngGA
        (acc, p0 :: p1 :: rest, c) =
      (acc ++ [[0, 1], [0, 1]],
       gaJitter p0 1 :: gaJitter p1 1 :: rest, c') := by
  obtain ⟨c1, h1⟩ := gaTournament pop v c hn
  obtain ⟨c2, h2⟩ := gaTournament pop v c1 hn
  simp only [pairingStep, h1, h2, h0, drawRnd, rngGA_rnd]
  rw [if_pos (show (0:ℚ) < crossoverRate from by norm_num [crossoverRate])]
  obtain ⟨c4, h4⟩ := gaCrossover 0 1 { c2 with rnd := c2.rnd + 1 }
  rw [h4]
  simp only [drawRnd, rngGA_rnd]
  rw [if_pos (show (0:ℚ) < mutationRate from by norm_num [mutationRate])]
  obtain ⟨c5, h5⟩ := gaMutate p0 p1 rest { c4 with rnd := c4.rnd + 1 }
  rw [h5]
  rw [if_pos (show (0:ℚ) < mutationRate from by norm_num [mutationRate])]
  obtain ⟨c6, h6⟩ := gaMutate (gaJitter p0 (1/2)) (gaJitter p1 (1/2)) rest
    { c5 with rnd := c5.rnd + 1 }
  rw [h6]
  refine ⟨c6, ?_⟩
  rw [gaJitter_jitter, gaJitter_jitter]
  norm_num

/-- `k` offspring pairings: `2k` copies of `[0, 1]` are appended to the new
population and heap objects 0 and 1 drift by `+k` on each axis. -/
theorem gaReproduce (k : Nat) :
    ∀ (pop : List (List Nat)) (v : ℝ) (acc : List (List Nat))
      (p0 p1 : PlantPlacement) (rest : List PlantPlacement) (c : Cnt),
    pop.length = 50 → pop.getD 0 [] = [0, 1] →
    ∃ c', reproduceAux pop (List.replicate 50 ((v:ℝ) : WithBot ℝ)) rngGA k
        (acc, p0 :: p1 :: rest, c) =
      (acc ++ List.replicate (2*k) [0, 1],
       gaJitter p0 (k : ℝ) :: gaJitter p1 (k : ℝ) :: rest, c') := by
  induction k with
  | zero =>
    intro pop v acc p0 p1 rest c _ _
    refine ⟨c, ?_⟩
    rw [reproduceAux]
    simp [gaJitter_zero]
  | succ m ih =>
    intro pop v acc p0 p1 rest c hn h0
    obtain ⟨c1, h1⟩ := gaPairing pop v acc p0 p1 rest c hn h0
    rw [reproduceAux, h1]
    obtain ⟨c2, h2⟩ := ih pop v (acc ++ [[0, 1], [0, 1]]) (gaJitter p0 1)
      (gaJitter p1 1) rest c1 hn h0
    rw [h2]
    refine ⟨c2, ?_⟩
    rw [Prod.mk.injEq, Prod.mk.injEq]
    refine ⟨?_, ?_, rfl⟩
    · rw [List.append_assoc]
      congr 1
    · rw [List.cons.injEq, List.cons.injEq]
      refine ⟨?_, ?_, rfl⟩ <;>
        · rw [gaJitter_jitter]
          congr 1
          push_cast
          ring

/-- Generation 0: all 50 individuals score 20 (all plants at `(2, 0)`, on
the zone boundary), the first individual `[0, 1]` is recorded as best via a
shallow copy, and reproduction regenerates the population as 50 aliases of
`[0, 1]` while drifting heap objects 0 and 1 to `(27, 25)`. -/
theorem gaGen0 (pop : List (List Nat)) (rest : List PlantPlacement) (c : Cnt)
    (hn : pop.length = 50) (h0 : pop.getD 0 [] = [0, 1])
    (hall : ∀ ind ∈ pop,
      deref (pGA 2 0 :: pGA 2 0 :: rest) ind = [pGA 2 0, pGA 2 0]) :
    ∃ c', generationStep [zoneGA] rngGA
        ⟨pGA 2 0 :: pGA 2 0 :: rest, pop, ⊥, none, c⟩ =
      ⟨pGA 27 25 :: pGA 27 25 :: rest, List.replicate 50 [0, 1],
       ((20:ℝ) : WithBot ℝ), some [0, 1], c'⟩ := by
  have hfit : ∀ ind ∈ pop,
      fitnessIds (pGA 2 0 :: pGA 2 0 :: rest) ind [zoneGA] = ((20:ℝ) : WithBot ℝ) := by
    intro ind hi
    rw [fitnessIds, hall ind hi, gaFitnessPair, if_pos (by norm_num)]
  obtain ⟨rest', hpop⟩ : ∃ rest', pop = [0, 1] :: rest' := by
    cases pop with
    | nil => simp at hn
    | cons a t =>
      have ha : a = [0, 1] := h0
      exact ⟨t, by rw [ha]⟩
  subst hpop
  have h50 : rest'.length + 1 = 50 := by simpa using hn
  simp only [generationStep,
    gaEvalFirst (pGA 2 0 :: pGA 2 0 :: rest) [zoneGA] 20 [0, 1] rest' hfit, h50,
    show populationSize / 2 = 25 from rfl]
  obtain ⟨c2, h2⟩ := gaReproduce 25 ([0, 1] :: rest') 20 [] (pGA 2 0) (pGA 2 0)
    rest c hn h0
  rw [h2]
  refine ⟨c2, ?_⟩
  simp only [List.nil_append, show populationSize = 50 from rfl,
    List.take_replicate, Nat.min_self, gaJitter_pGA]
  norm_num

/-- Every later generation: with both tracked heap objects at an
out-of-zone position, all individuals score `-180 < 20`, the recorded best
is untouched, and the objects drift a further `+25` on each axis. -/
theorem gaGenLater (x y : ℝ) (rest : List PlantPlacement) (c : Cnt)
    (hout : ¬ (x^2 + y^2 ≤ 4)) :
    ∃ c', generationStep [zoneGA] rngGA
        ⟨pGA x y :: pGA x y :: rest, List.replicate 50 [0, 1],
         ((20:ℝ) : WithBot ℝ), some [0, 1], c⟩ =
      ⟨pGA (x + 25) (y + 25) :: pGA (x + 25) (y + 25) :: rest,
       List.replicate 50 [0, 1], ((20:ℝ) : WithBot ℝ), some [0, 1], c'⟩ := by
  have hfit : ∀ ind ∈ List.replicate 50 ([0, 1] : List Nat),
      fitnessIds (pGA x y :: pGA x y :: rest) ind [zoneGA] =
        ((-180:ℝ) : WithBot ℝ) := by
    intro ind hi
    rw [List.eq_of_mem_replicate hi, fitnessIds,
      show deref (pGA x y :: pGA x y :: rest) [0, 1] = [pGA x y, pGA x y] from by
        simp [deref, derefOne],
      gaFitnessPair, if_neg hout]
  have hnb : ¬ (((20:ℝ) : WithBot ℝ) < ((-180:ℝ) : WithBot ℝ)) := by
    rw [WithBot.coe_lt_coe]
    norm_num
  simp only [generationStep, gaEvalConst _ [zoneGA] _ _ _ _ hfit hnb,
    List.length_replicate, show populationSize / 2 = 25 from rfl]
  obtain ⟨c2, h2⟩ := gaReproduce 25 (List.replicate 50 [0, 1]) (-180) []
    (pGA x y) (pGA x y) rest c (by simp)
    (getD_replicate 50 [0, 1] [] 0 (by norm_num))
  rw [h2]
  refine ⟨c2, ?_⟩
  simp only [List.nil_append, show populationSize = 50 from rfl,
    List.take_replicate, Nat.min_self, gaJitter_pGA]
  norm_num

/-- Iterating `m` further generations from the post-generation-`g` state
(`g ≥ 1`): the tracked objects drift to `(2 + 25(g+m), 25(g+m))`, the best
record stays `([0,1], 20)`. -/
theorem gaRunFrom (m : Nat) :
    ∀ (g : Nat) (rest : List PlantPlacement) (c : Cnt), 1 ≤ g →
    ∃ c', runGenerations [zoneGA] rngGA m
        ⟨pGA (2 + 25*(g:ℝ)) (25*(g:ℝ)) :: pGA (2 + 25*(g:ℝ)) (25*(g:ℝ)) :: rest,
         List.replicate 50 [0, 1], ((20:ℝ) : WithBot ℝ), some [0, 1], c⟩ =
      ⟨pGA (2 + 25*((g + m : Nat):ℝ)) (25*((g + m : Nat):ℝ)) ::
         pGA (2 + 25*((g + m : Nat):ℝ)) (25*((g + m : Nat):ℝ)) :: rest,
       List.replicate 50 [0, 1], ((20:ℝ) : WithBot ℝ), some [0, 1], c'⟩ := by
  induction m with
  | zero =>
    intro g rest c _
    refine ⟨c, ?_⟩
    rw [runGenerations]
    norm_num
  | succ k ih =>
    intro g rest c hg
    have hout : ¬ ((2 + 25*(g:ℝ))^2 + (25*(g:ℝ))^2 ≤ 4) := by
      push_neg
      have hg' : (1:ℝ) ≤ (g:ℝ) := by exact_mod_cast hg
      nlinarith
    obtain ⟨c1, h1⟩ := gaGenLater (2 + 25*(g:ℝ)) (25*(g:ℝ)) rest c hout
    rw [runGenerations, h1,
      show (2 + 25*(g:ℝ)) + 25 = 2 + 25*((g + 1 : Nat):ℝ) from by push_cast; ring,
      show (25*(g:ℝ)) + 25 = 25*((g + 1 : Nat):ℝ) from by push_cast; ring]
    obtain ⟨c2, h2⟩ := ih (g + 1) rest c1 (by omega)
    rw [h2, show ((g + 1 + k : Nat):ℝ) = ((g + (k + 1) : Nat):ℝ) from by
      push_cast
      ring]
    exact ⟨c2, rfl⟩

/-- The complete run: the final state of `optimize_placement_genetic` on the
C1 fixtures. -/
theorem gaRunState :
    ∃ c', gaRun =
      ⟨pGA 2502 2500 :: pGA 2502 2500 :: List.replicate 98 (pGA 2 0),
       List.replicate 50 [0, 1], ((20:ℝ) : WithBot ℝ), some [0, 1], c'⟩ := by
  obtain ⟨c1, h1⟩ := gaInitPop 50 [] [] {}
  have hstore : List.replicate (2 * 50) (pGA 2 0) =
      pGA 2 0 :: pGA 2 0 :: List.replicate 98 (pGA 2 0) := rfl
  have hn : ((List.range 50).map
      (fun i => [([] : List PlantPlacement).length + 2*i,
        ([] : List PlantPlacement).length + 2*i + 1])).length = 50 := by
    simp
  have h0 : ((List.range 50).map
      (fun i => [([] : List PlantPlacement).length + 2*i,
        ([] : List PlantPlacement).length + 2*i + 1])).getD 0 [] = [0, 1] := by
    decide
  have hall : ∀ ind ∈ (List.range 50).map
      (fun i => [([] : List PlantPlacement).length + 2*i,
        ([] : List PlantPlacement).length + 2*i + 1]),
      deref (pGA 2 0 :: pGA 2 0 :: List.replicate 98 (pGA 2 0)) ind =
        [pGA 2 0, pGA 2 0] := by
    intro ind hi
    obtain ⟨i, hir, rfl⟩ := List.mem_map.mp hi
    have hi50 : i < 50 := List.mem_range.mp hir
    rw [← hstore]
    simp only [deref, derefOne, List.map_cons, List.map_nil, List.length_nil]
    rw [getD_replicate (2 * 50) (pGA 2 0) defaultPlacement (0 + 2*i) (by omega),
      getD_replicate (2 * 50) (pGA 2 0) defaultPlacement (0 + 2*i + 1) (by omega)]
  rw [gaRun, optimize_placement_genetic]
  simp only [show populationSize = 50 from rfl, h1, List.nil_append]
  rw [show generationTotal = 99 + 1 from rfl, runGenerations, hstore]
  obtain ⟨c2, h2⟩ := gaGen0 _ (List.replicate 98 (pGA 2 0)) c1 hn h0 hall
  rw [h2,
    show (25:ℝ) = 25*((1 : Nat):ℝ) from by push_cast; ring,
    show (27:ℝ) = 2 + 25*((1 : Nat):ℝ) from by push_cast; ring]
  obtain ⟨c3, h3⟩ := gaRunFrom 99 1 (List.replicate 98 (pGA 2 0)) c2 le_rfl
  rw [h3]
  refine ⟨c3, ?_⟩
  norm_num

/-- C1: evaluation of the run on the concrete fixtures (two zero-spacing
plants, one radius-2 zone, the deterministic `rngGA` oracle).  The best
individual is recorded in generation 0 with fitness 20 — the maximum
fitness ever computed — while its placements sit at `(2, 0)`.  Because
`best_solution = individual.copy()` is a SHALLOW copy and `_mutate` updates
the shared `PlantPlacement` objects in place, the returned candidate's
placements end at `(2502, 2500)`; its fitness under `_calculate_fitness`
over the same zones is `-180 ≠ 20`, and the returned individual is NOT the
`(2, 0)` candidate that was recorded as best.  This refutes both halves of
the claim. -/
theorem C1_returned_best_corrupted_by_aliasing :
    gaRun.best_fitness = ((20:ℝ) : WithBot ℝ) ∧
    gaRun.best_solution = some [0, 1] ∧
    returnedCandidate gaRun = some [pGA 2502 2500, pGA 2502 2500] ∧
    calculate_fitness [pGA 2502 2500, pGA 2502 2500] [zoneGA] =
      ((-180:ℝ) : WithBot ℝ) ∧
    calculate_fitness [pGA 2502 2500, pGA 2502 2500] [zoneGA] ≠
      gaRun.best_fitness ∧
    returnedCandidate gaRun ≠ some [pGA 2 0, pGA 2 0] := by
  obtain ⟨c', h⟩ := gaRunState
  have hret : returnedCandidate gaRun = some [pGA 2502 2500, pGA 2502 2500] := by
    rw [returnedCandidate, h]
    simp [deref, derefOne]
  have hfit : calculate_fitness [pGA 2502 2500, pGA 2502 2500] [zoneGA] =
      ((-180:ℝ) : WithBot ℝ) := by
    rw [gaFitnessPair, if_neg (by norm_num)]
  refine ⟨by rw [h], by rw [h], hret, hfit, ?_, ?_⟩
  · rw [hfit, h]
    simp only [Ne, WithBot.coe_eq_coe]
    norm_num
  · rw [hret]
    intro heq
    have hx := congrArg (fun o => ((o.getD []).getD 0 defaultPlacement).x) heq
    simp only [Option.getD_some, List.getD_cons_zero] at hx
    rw [show (pGA 2502 2500).x = 2502 from rfl,
      show (pGA 2 0).x = 2 from rfl] at hx
    norm_num at hx

end Agro
